import Mathlib

/-!
Speech SDK core: the USP client (`source/core/usp/uspimpl.c`) and the positioned
read/write ring buffer.

A shallow embedding of the USP context operations of `uspimpl.c`, a model of the ring
buffer taken from the specification, and the properties of the specification.

Conventions of the embedding of `uspimpl.c`.

* A C pointer that the code tests against `NULL` is an `Option`.
* Every call that leaves `uspimpl.c` (transport, metrics, telemetry, user
  callbacks, content dispatch) is recorded, with its arguments, as an `Event`;
  a function returns the list of events it produced, in program order.
* What such a call returns is not determined by `uspimpl.c`; it is read from
  the `Env` record, so every theorem quantifies over all behaviours of the
  collaborators.
* `LogInfo` / `LogError` and `Lock` / `Unlock` have no effect on the values
  computed and are left out of the event list.
-/

namespace Usp

/-- Contents of a byte buffer (`const uint8_t*` / `const unsigned char*`). -/
abbrev Bytes := List Nat

/-- An opaque, non-null `TransportHandle`. -/
abbrev TransportHandle := Nat

/-- A header table of `azure_c_shared_utility/httpheaders.h`: names with their values,
in insertion order. -/
abbrev HttpHeaders := List (String × String)

/-- The result codes `UspResult`, as used by `uspimpl.c` and listed by the specification. -/
inductive UspResult
  | USP_SUCCESS
  | USP_OUT_OF_MEMORY
  | USP_INVALID_ARGUMENT
  | USP_INVALID_HANDLE
  | USP_ALREADY_INITIALIZED_ERROR
  | USP_INITIALIZATION_FAILURE
  | USP_WRONG_STATE
  | USP_AUTH_ERROR
  | USP_CONNECTION_FAILURE
  | USP_CONNECTION_REMOTE_CLOSED
  | USP_TRANSPORT_ERROR_GENERIC
  | USP_INVALID_RESPONSE
  | USP_INVALID_ENUM_VALUE
  deriving DecidableEq, Repr, Fintype

/-- A value of C type `UspResult` handed back by `return`: either one of the enumerators,
or an `int` that the code returns unconverted (`return ret;` in `AudioStreamWrite`). -/
inductive UspReturn
  | enumerator (r : UspResult)
  | rawInt (n : Int)
  deriving DecidableEq, Repr

/-- Modelled from the spec: the connection-state enumeration of `uspinternal.h` is not in
the source; these are the connection states the specification lists. `uspimpl.c` itself
names only `USP_STATE_CONNECTED`. -/
inductive UspState
  | USP_STATE_IDLE
  | USP_STATE_CONNECTING
  | USP_STATE_CONNECTED
  | USP_STATE_CLOSING
  | USP_STATE_CLOSED
  | USP_STATE_ERROR
  deriving DecidableEq, Repr

/-- The endpoint kind (`uspContext->type`). -/
inductive UspEndpointType
  | USP_ENDPOINT_DEFAULT
  | USP_ENDPOINT_CDSDK
  deriving DecidableEq, Repr

/-- The authentication kind (`uspContext->authType`). `other v` is any further integer the
enum-typed field can hold; it reaches the `default:` label of the `switch`. -/
inductive UspAuthenticationType
  | USP_AUTHENTICATION_SUBSCRIPTION_KEY
  | USP_AUTHENTICATION_AUTHORIZATION_TOKEN
  | USP_AUTHENTICATION_SEARCH_DELEGATION_RPS_TOKEN
  | other (v : Int)
  deriving DecidableEq, Repr

/-- The reason a transport error callback is invoked with. `other v` is any further integer
value of the enum type; it reaches the `default:` label. -/
inductive TransportError
  | TRANSPORT_ERROR_NONE
  | TRANSPORT_ERROR_AUTHENTICATION
  | TRANSPORT_ERROR_CONNECTION_FAILURE
  | TRANSPORT_ERROR_DNS_FAILURE
  | TRANSPORT_ERROR_REMOTECLOSED
  | other (v : Int)
  deriving DecidableEq, Repr

/-- The error record passed to `OnError`. -/
structure UspError where
  errorCode : UspResult
  description : String
  deriving DecidableEq, Repr

/-- The callback table. A function pointer is `none` when `NULL`, otherwise an opaque
identifier of the user function. -/
structure UspCallbacks where
  version : Nat
  size : Nat
  OnError : Option Nat
  onSpeechStartDetected : Option Nat
  onSpeechEndDetected : Option Nat
  onSpeechHypothesis : Option Nat
  onSpeechPhrase : Option Nat
  onSpeechFragment : Option Nat
  onTurnStart : Option Nat
  onTurnEnd : Option Nat
  deriving DecidableEq, Repr

/-- An entry of the user path handler list. -/
structure UserPathHandler where
  path : String
  handler : Option Nat
  deriving DecidableEq, Repr

/-- The fields of `UspContext` that `uspimpl.c` reads or writes. `telemetry`, `dnsCache` and
`callbackContext` are opaque pointer values. -/
structure UspContext where
  type : UspEndpointType
  authType : UspAuthenticationType
  authData : Option String
  state : UspState
  audioOffset : Nat
  transport : Option TransportHandle
  telemetry : Nat
  dnsCache : Nat
  callbacks : Option UspCallbacks
  callbackContext : Nat
  userPathHandlerList : List UserPathHandler
  deriving DecidableEq, Repr

/-- The four functions the system dispatch table points to. -/
inductive SystemMessageHandler
  | ContentPathHandler
  | SpeechStartHandler
  | SpeechEndHandler
  | TurnEndHandler
  deriving DecidableEq, Repr

/-- Calls that leave `uspimpl.c`, with their arguments. `systemHandler` marks the call
through the dispatch table, `assertFailed` an `assert` whose condition is false (the code
after it is what a build without assertions runs). -/
inductive Event
  | TransportMessageWrite (t : Option TransportHandle) (path : String) (data : Bytes) (size : Nat)
  | TransportStreamPrepare (t : Option TransportHandle) (args : String)
  | TransportStreamWrite (t : Option TransportHandle) (data : Bytes) (size : Nat)
  | TransportStreamFlush (t : Option TransportHandle)
  | TransportCreateRequestId (t : Option TransportHandle)
  | TransportRequestCreate (endpoint : String) (telemetry : Nat) (headers : HttpHeaders)
  | TransportSetDnsCache (t : TransportHandle) (dnsCache : Nat)
  | TransportSetCallbacks (t : TransportHandle)
  | TransportRequestDestroy (t : TransportHandle)
  | HTTPHeaders_Free (headers : HttpHeaders)
  | metrics_audiostream_data (size : Nat)
  | metrics_audiostream_init
  | metrics_audio_start (telemetry : Nat)
  | metrics_audiostream_flush
  | metrics_audio_end (telemetry : Nat)
  | metrics_transport_unhandledresponse
  | PROTOCOL_VIOLATION (what : String)
  | telemetry_flush (telemetry : Nat)
  | OnError (fn : Nat) (callbackContext : Nat) (error : UspError)
  | onSpeechStartDetected (fn : Nat) (callbackContext : Nat)
  | onSpeechEndDetected (fn : Nat) (callbackContext : Nat)
  | onTurnEnd (fn : Nat) (callbackContext : Nat)
  | userMessage (fn : Nat) (path : String) (contentType : Option String) (buffer : Bytes)
      (size : Nat) (callbackContext : Nat)
  | ContentDispatch (path : String) (mime : Option String) (content : Bytes) (size : Nat)
  | systemHandler (h : SystemMessageHandler) (path : String) (mime : Option String)
      (buffer : Bytes) (size : Nat)
  | assertFailed
  deriving DecidableEq, Repr

/-- What the collaborators of `uspimpl.c` answer, and the constants of headers that are not
in the source. -/
structure Env where
  /-- width in bits of the unsigned `audioOffset` field -/
  offsetBits : Nat
  /-- value of `sizeof(UspCallbacks)` -/
  sizeofUspCallbacks : Nat
  /-- the code `USP_RETURN_ERROR_IF_CALLBACKS_NULL` returns -/
  callbacksNullResult : UspResult
  TransportMessageWrite : Option TransportHandle → String → Bytes → Nat → Int
  TransportStreamPrepare : Option TransportHandle → String → Int
  TransportStreamWrite : Option TransportHandle → Bytes → Nat → Int
  TransportStreamFlush : Option TransportHandle → Int
  TransportRequestCreate : String → Nat → HttpHeaders → Option TransportHandle
  /-- whether `HTTPHeaders_Alloc` returns a table -/
  HTTPHeaders_Alloc : Bool
  /-- whether `HTTPHeaders_ReplaceHeaderNameValuePair` returns 0 on a non-null value -/
  headerReplaceOk : HttpHeaders → String → String → Bool
  /-- whether `STRING_construct` returns a string -/
  STRING_construct : String → Bool
  /-- whether `malloc` of that many bytes returns a block -/
  malloc : Nat → Bool
  /-- whether `BUFFER_create` of that many bytes returns a buffer -/
  BUFFER_create : Bytes → Nat → Bool
  ContentDispatch : String → Option String → Bytes → Nat → UspResult

/-! ## Constants -/

def g_messagePathSpeechHypothesis : String := "speech.hypothesis"
def g_messagePathSpeechPhrase : String := "speech.phrase"
def g_messagePathSpeechFragment : String := "speech.fragment"
def g_messagePathTurnStart : String := "turn.start"
def g_messagePathTurnEnd : String := "turn.end"
def g_messagePathSpeechStartDetected : String := "speech.startDetected"
def g_messagePathSpeechEndDetected : String := "speech.endDetected"
def g_userAgent : String := "CortanaSDK (Windows;Win32;DeviceType=Near;SpeechClient=2.0.4)"

def g_requestHeaderUserAgent : String := "User-Agent"
def g_requestHeaderOcpApimSubscriptionKey : String := "Ocp-Apim-Subscription-Key"
def g_requestHeaderAuthorization : String := "Authorization"
def g_requestHeaderSearchDelegationRPSToken : String := "X-Search-DelegationRPSToken"
def g_requestHeaderAudioResponseFormat : String := "X-Output-AudioCodec"

/-- Modelled from the spec: the macro `KEYWORD_PATH` is not in the source; the
specification names the header `Path`. -/
def KEYWORD_PATH : String := "Path"

/-- Modelled from the spec: the constant `g_keywordContentType` is not in the source; the
specification names the header `Content-Type`. -/
def g_keywordContentType : String := "Content-Type"

/-- Modelled from the spec: `USP_CALLBACK_VERSION` is not in the source; the specification
gives the accepted version as 1. -/
def USP_CALLBACK_VERSION : Nat := 1

/-! ## Missing macros of `uspinternal.h`

`USP_RETURN_ERROR_IF_HANDLE_NULL`, `USP_RETURN_ERROR_IF_ARGUMENT_NULL`,
`USP_RETURN_ERROR_IF_WRONG_STATE`, `USP_RETURN_ERROR_IF_CALLBACKS_NULL`,
`USP_RETURN_VOID_IF_CALLBACKS_NULL` and `USP_RETURN_VOID_IF_CONTEXT_NULL` are used by
`uspimpl.c` and defined in a header that is not in the source. Each is an early `return`
taken when the named condition holds; the codes they return are fixed here, except that
the handlers take the code of `USP_RETURN_ERROR_IF_CALLBACKS_NULL` from the environment. -/

/-- Modelled from the spec: the code `USP_RETURN_ERROR_IF_HANDLE_NULL` returns
(`INVALID_HANDLE` in the specification's taxonomy). -/
def handleNullResult : UspResult := .USP_INVALID_HANDLE

/-- Modelled from the spec: the code `USP_RETURN_ERROR_IF_ARGUMENT_NULL` returns
(`INVALID_ARGUMENT` in the specification's taxonomy). -/
def argumentNullResult : UspResult := .USP_INVALID_ARGUMENT

/-- Modelled from the spec: the code `USP_RETURN_ERROR_IF_WRONG_STATE` returns when the
context is not in the expected state (`message_write` outside `connected` gives
`WRONG_STATE`). -/
def wrongStateResult : UspResult := .USP_WRONG_STATE

/-- Modelled from the spec: the code `USP_RETURN_ERROR_IF_CALLBACKS_NULL` returns when no
callback table is installed on the context. The macro is in `uspinternal.h`, which is not
in the source; the specification says that a missing callback for any path is never an
error. The handlers take the code from `Env.callbacksNullResult`. -/
def callbacksNullResultOfSpec : UspResult := .USP_SUCCESS

/-! ## Message and audio upstream -/

/-- Function `MessageWrite(uspHandle, path, data, size)`: the result and the transport calls made. -/
def MessageWrite (env : Env) (uspHandle : Option UspContext) (path : Option String)
    (data : Option Bytes) (size : Nat) : UspResult × List Event :=
  match uspHandle with
  | none => (handleNullResult, [])
  | some ctx =>
    match data with
    | none => (argumentNullResult, [])
    | some d =>
      match path with
      | none => (.USP_INVALID_ARGUMENT, [])
      | some p =>
        if p.length = 0 then (.USP_INVALID_ARGUMENT, [])
        else if ctx.state ≠ .USP_STATE_CONNECTED then (wrongStateResult, [])
        else
          let ret := env.TransportMessageWrite ctx.transport p d size
          (if ret = 0 then .USP_SUCCESS else .USP_TRANSPORT_ERROR_GENERIC,
            [.TransportMessageWrite ctx.transport p d size])

/-- What a call of `AudioStreamWrite` leaves behind: the value returned, the context, the
value stored through `bytesWritten` (`none` for a null pointer), and the calls made. -/
structure AudioWriteOutcome where
  ret : UspReturn
  ctx : Option UspContext
  bytesWritten : Option Nat
  trace : List Event

/-- The part of `AudioStreamWrite` from `TransportStreamWrite` to the end, entered with the
calls made so far. -/
def audioStreamWriteTail (env : Env) (ctx : UspContext) (d : Bytes) (size : Nat)
    (bytesWritten : Option Nat) (sofar : List Event) : AudioWriteOutcome :=
  let ret := env.TransportStreamWrite ctx.transport d size
  let ctx1 := { ctx with audioOffset := (ctx.audioOffset + size) % 2 ^ env.offsetBits }
  let bw := if ret = 0 ∧ bytesWritten ≠ none then some size else bytesWritten
  ⟨.enumerator (if ret = 0 then .USP_SUCCESS else .USP_TRANSPORT_ERROR_GENERIC),
    some ctx1, bw, sofar ++ [.TransportStreamWrite ctx.transport d size]⟩

/-- Function `AudioStreamWrite(uspHandle, data, size, bytesWritten)`. The argument `bytesWritten` is
the value the pointer refers to on entry, `none` for a null pointer. -/
def AudioStreamWrite (env : Env) (uspHandle : Option UspContext) (data : Option Bytes)
    (size : Nat) (bytesWritten : Option Nat) : AudioWriteOutcome :=
  let httpArgs := "/audio"
  match uspHandle with
  | none => ⟨.enumerator handleNullResult, none, bytesWritten, []⟩
  | some ctx =>
    match data with
    | none => ⟨.enumerator argumentNullResult, some ctx, bytesWritten, []⟩
    | some d =>
      if size = 0 then ⟨.enumerator .USP_INVALID_ARGUMENT, some ctx, bytesWritten, []⟩
      else
        let t0 : List Event := [.metrics_audiostream_data size]
        if ctx.audioOffset = 0 then
          let t1 := t0 ++ [.metrics_audiostream_init, .metrics_audio_start ctx.telemetry,
                           .TransportStreamPrepare ctx.transport httpArgs]
          let ret := env.TransportStreamPrepare ctx.transport httpArgs
          if ret ≠ 0 then ⟨.rawInt ret, some ctx, bytesWritten, t1⟩
          else audioStreamWriteTail env ctx d size bytesWritten t1
        else audioStreamWriteTail env ctx d size bytesWritten t0

/-- What a call of `AudioStreamFlush` leaves behind. -/
structure AudioFlushOutcome where
  ret : UspResult
  ctx : Option UspContext
  trace : List Event

/-- Function `AudioStreamFlush(uspHandle)`. -/
def AudioStreamFlush (env : Env) (uspHandle : Option UspContext) : AudioFlushOutcome :=
  match uspHandle with
  | none => ⟨handleNullResult, none, []⟩
  | some ctx =>
    if ctx.audioOffset = 0 then ⟨.USP_SUCCESS, some ctx, []⟩
    else
      let ret := env.TransportStreamFlush ctx.transport
      ⟨if ret = 0 then .USP_SUCCESS else .USP_TRANSPORT_ERROR_GENERIC,
        some { ctx with audioOffset := 0 },
        [.TransportStreamFlush ctx.transport, .metrics_audiostream_flush,
         .metrics_audio_end ctx.telemetry]⟩

/-! ## Transport error callback -/

/-- The `switch (reason)` of `TransportErrorHandler`: the error record built for a reason. -/
def transportErrorOf : TransportError → UspError
  | .TRANSPORT_ERROR_NONE => ⟨.USP_TRANSPORT_ERROR_GENERIC, "Unknown transport error."⟩
  | .TRANSPORT_ERROR_AUTHENTICATION => ⟨.USP_AUTH_ERROR, "Authentication error (401/403)."⟩
  | .TRANSPORT_ERROR_CONNECTION_FAILURE =>
      ⟨.USP_CONNECTION_FAILURE, "Connection failed (no connection to the remote host)."⟩
  | .TRANSPORT_ERROR_DNS_FAILURE =>
      ⟨.USP_CONNECTION_FAILURE, "Connection failed (the remote host did not respond)."⟩
  | .TRANSPORT_ERROR_REMOTECLOSED =>
      ⟨.USP_CONNECTION_REMOTE_CLOSED, "Connection was closed by the remote host."⟩
  | .other _ => ⟨.USP_INVALID_ENUM_VALUE, "Unknown TransportError enum value."⟩

/-- Function `TransportErrorHandler(transportHandle, reason, context)`, for the non-null context its
`assert` demands: the context afterwards and the calls made. The function writes no field
of the context. -/
def TransportErrorHandler (reason : TransportError) (uspContext : UspContext) :
    UspContext × List Event :=
  match uspContext.callbacks with
  | none => (uspContext, [])
  | some callbacks =>
    match callbacks.OnError with
    | none => (uspContext, [])
    | some fn =>
      let pre : List Event :=
        match reason with
        | .other _ => [.assertFailed]
        | _ => []
      (uspContext, pre ++ [.OnError fn uspContext.callbackContext (transportErrorOf reason)])

/-! ## Inbound handlers -/

/-- Function `SpeechStartHandler`: the result and the calls made. -/
def SpeechStartHandler (env : Env) (uspContext : UspContext) : UspResult × List Event :=
  match uspContext.callbacks with
  | none => (env.callbacksNullResult, [])
  | some callbacks =>
    match callbacks.onSpeechStartDetected with
    | none => (.USP_SUCCESS, [])
    | some fn => (.USP_SUCCESS, [.onSpeechStartDetected fn uspContext.callbackContext])

/-- Function `SpeechEndHandler`: the result and the calls made. -/
def SpeechEndHandler (env : Env) (uspContext : UspContext) : UspResult × List Event :=
  match uspContext.callbacks with
  | none => (env.callbacksNullResult, [])
  | some callbacks =>
    match callbacks.onSpeechEndDetected with
    | none => (.USP_SUCCESS, [])
    | some fn => (.USP_SUCCESS, [.onSpeechEndDetected fn uspContext.callbackContext])

/-- Function `TurnEndHandler`: the result and the calls made. -/
def TurnEndHandler (env : Env) (uspContext : UspContext) : UspResult × List Event :=
  let t0 : List Event := [.telemetry_flush uspContext.telemetry]
  match uspContext.callbacks with
  | none => (env.callbacksNullResult, t0)
  | some callbacks =>
    let t1 : List Event :=
      match callbacks.onTurnEnd with
      | none => t0
      | some fn => t0 ++ [.onTurnEnd fn uspContext.callbackContext]
    (.USP_SUCCESS, t1 ++ [.TransportCreateRequestId uspContext.transport])

/-- The copy `ContentPathHandler` hands to `ContentDispatch`: `BUFFER_create(buffer, size + 1)`
followed by `BUFFER_u_char(handle)[size] = 0`. A byte read past the end of the list, which
the source does not determine, is taken as 0. -/
def contentCopy (buffer : Bytes) (size : Nat) : Bytes :=
  ((List.range (size + 1)).map (fun i => buffer.getD i 0)).set size 0

/-- Function `ContentPathHandler`: the result and the calls made. -/
def ContentPathHandler (env : Env) (path : String) (mime : Option String) (buffer : Bytes)
    (size : Nat) : UspResult × List Event :=
  if size = 0 then (.USP_INVALID_RESPONSE, [.PROTOCOL_VIOLATION "response contains no body"])
  else if env.BUFFER_create buffer (size + 1) = false then (.USP_OUT_OF_MEMORY, [])
  else
    let content := contentCopy buffer size
    (env.ContentDispatch path mime content size, [.ContentDispatch path mime content size])

/-- The dispatch table `g_SystemMessageHandlers`, in source order. -/
def g_SystemMessageHandlers : List (String × SystemMessageHandler) :=
  [ (g_messagePathTurnStart, .ContentPathHandler),
    (g_messagePathSpeechStartDetected, .SpeechStartHandler),
    (g_messagePathSpeechEndDetected, .SpeechEndHandler),
    (g_messagePathTurnEnd, .TurnEndHandler),
    (g_messagePathSpeechHypothesis, .ContentPathHandler),
    (g_messagePathSpeechPhrase, .ContentPathHandler),
    (g_messagePathSpeechFragment, .ContentPathHandler) ]

/-- The call `g_SystemMessageHandlers[i].handler(uspContext, path, contentType, buffer, size)`
for the function a table entry points to. -/
def SystemMessageHandler.call (h : SystemMessageHandler) (env : Env) (uspContext : UspContext)
    (path : String) (mime : Option String) (buffer : Bytes) (size : Nat) :
    UspResult × List Event :=
  match h with
  | .ContentPathHandler => Usp.ContentPathHandler env path mime buffer size
  | .SpeechStartHandler => Usp.SpeechStartHandler env uspContext
  | .SpeechEndHandler => Usp.SpeechEndHandler env uspContext
  | .TurnEndHandler => Usp.TurnEndHandler env uspContext

/-- Function `HTTPHeaders_FindHeaderValue`: the value stored under a name, `none` for `NULL`. -/
def HTTPHeaders_FindHeaderValue (headers : HttpHeaders) (name : String) : Option String :=
  (headers.find? (fun kv => kv.1 == name)).map (fun kv => kv.2)

/-- Function `userPathHandlerCompare`: `strcmp(value1->path, path) == 0`. -/
def userPathHandlerCompare (item1 : UserPathHandler) (path : String) : Bool :=
  item1.path == path

/-- The local `contentType` of `TransportRecvResponseHandler`: initialised to `NULL` and
looked up only for a non-empty body. -/
def recvContentType (headers : HttpHeaders) (size : Nat) : Option String :=
  if size ≠ 0 then HTTPHeaders_FindHeaderValue headers g_keywordContentType else none

/-- Function `TransportRecvResponseHandler(transportHandle, responseHeader, buffer, size, errorCode,
context)`: the context afterwards and the calls made. The function writes no field of the
context. -/
def TransportRecvResponseHandler (env : Env) (responseHeader : Option HttpHeaders)
    (buffer : Bytes) (size : Nat) (errorCode : Nat) (context : Option UspContext) :
    Option UspContext × List Event :=
  match context with
  | none => (none, [])
  | some uspContext =>
    if errorCode ≠ 0 then (context, [])
    else
      match responseHeader with
      | none => (context, [])
      | some headers =>
        match HTTPHeaders_FindHeaderValue headers KEYWORD_PATH with
        | none => (context, [.PROTOCOL_VIOLATION "response missing Path header"])
        | some path =>
          let contentType := recvContentType headers size
          if size ≠ 0 ∧ contentType = none then
            (context, [.PROTOCOL_VIOLATION "response contains body with no content-type"])
          else
            match g_SystemMessageHandlers.find? (fun e => path == e.1) with
            | some e =>
              (context, Event.systemHandler e.2 path contentType buffer size ::
                (e.2.call env uspContext path contentType buffer size).2)
            | none =>
              let foundItem :=
                uspContext.userPathHandlerList.find? (fun item => userPathHandlerCompare item path)
              let asserts : List Event :=
                match foundItem with
                | some pathHandler => if pathHandler.handler = none then [.assertFailed] else []
                | none => []
              let userMsgHandler := foundItem.bind (fun pathHandler => pathHandler.handler)
              match userMsgHandler with
              | some fn =>
                (context, asserts ++ [.userMessage fn path contentType buffer size
                                        uspContext.callbackContext])
              | none =>
                (context, asserts ++ [.PROTOCOL_VIOLATION "unhandled response",
                                      .metrics_transport_unhandledresponse])

/-! ## Transport set-up and tear-down -/

/-- The effect of a successful `HTTPHeaders_ReplaceHeaderNameValuePair` on the table: the
value stored under an existing name is replaced, a new name is added at the end. -/
def replaceHeader (headers : HttpHeaders) (name value : String) : HttpHeaders :=
  if headers.any (fun kv => kv.1 == name) then
    headers.map (fun kv => if kv.1 == name then (kv.1, value) else kv)
  else headers ++ [(name, value)]

/-- Function `HTTPHeaders_ReplaceHeaderNameValuePair(headers, name, value)`: whether it returned 0,
and the table afterwards. A `NULL` value is refused by the library. -/
def HTTPHeaders_ReplaceHeaderNameValuePair (env : Env) (headers : HttpHeaders) (name : String)
    (value : Option String) : Bool × HttpHeaders :=
  match value with
  | none => (false, headers)
  | some v =>
    if env.headerReplaceOk headers name v then (true, replaceHeader headers name v)
    else (false, headers)

/-- What a call of `TransportInitialize` leaves behind: the result, the context, the final
value of the local table `connectionHeaders` (`none` if it was never allocated), and the
calls made. -/
structure InitOutcome where
  ret : UspResult
  ctx : UspContext
  connectionHeaders : Option HttpHeaders
  trace : List Event

/-- The end of `TransportInitialize`, after the `switch`: create the transport, store it,
attach the DNS cache and the callbacks, free the table. -/
def transportInitializeTail (env : Env) (ctx : UspContext) (endpoint : String)
    (connectionHeaders : HttpHeaders) : InitOutcome :=
  match env.TransportRequestCreate endpoint ctx.telemetry connectionHeaders with
  | none =>
    ⟨.USP_INITIALIZATION_FAILURE, ctx, some connectionHeaders,
      [.TransportRequestCreate endpoint ctx.telemetry connectionHeaders]⟩
  | some transportHandle =>
    ⟨.USP_SUCCESS, { ctx with transport := some transportHandle }, some connectionHeaders,
      [.TransportRequestCreate endpoint ctx.telemetry connectionHeaders,
       .TransportSetDnsCache transportHandle ctx.dnsCache,
       .TransportSetCallbacks transportHandle,
       .HTTPHeaders_Free connectionHeaders]⟩

/-- The table of `TransportInitialize` after its `if (uspContext->type == USP_ENDPOINT_CDSDK)`
block, starting from the empty table `HTTPHeaders_Alloc` returned. The results of the two
calls are not tested by the source. -/
def endpointHeaders (env : Env) (type : UspEndpointType) : HttpHeaders :=
  if type = .USP_ENDPOINT_CDSDK then
    let ha := (HTTPHeaders_ReplaceHeaderNameValuePair env []
                g_requestHeaderAudioResponseFormat (some "riff-16khz-16bit-mono-pcm")).2
    (HTTPHeaders_ReplaceHeaderNameValuePair env ha g_requestHeaderUserAgent
      (some g_userAgent)).2
  else []

/-- The context of `TransportInitialize` after its `if (uspContext->authData == NULL)` block:
without auth data the auth kind becomes subscription key and the data the built-in key
(`NULL` again if `STRING_construct` fails). -/
def defaultAuth (env : Env) (uspContext : UspContext) : UspContext :=
  if uspContext.authData = none then
    { uspContext with
      authType := .USP_AUTHENTICATION_SUBSCRIPTION_KEY
      authData :=
        if env.STRING_construct "92069ee289b84e5594a9564ab77ed2ba" then
          some "92069ee289b84e5594a9564ab77ed2ba"
        else none }
  else uspContext

/-- Function `TransportInitialize(uspContext, endpoint)`. In the authorization-token case the auth
data is non-null (a context without auth data has been switched to the subscription key
just before), so `getD` never yields its default. -/
def TransportInitialize (env : Env) (uspContext : UspContext) (endpoint : String) :
    InitOutcome :=
  if uspContext.transport ≠ none then ⟨.USP_ALREADY_INITIALIZED_ERROR, uspContext, none, []⟩
  else if env.HTTPHeaders_Alloc = false then ⟨.USP_INITIALIZATION_FAILURE, uspContext, none, []⟩
  else
    let h1 := endpointHeaders env uspContext.type
    let ctx := defaultAuth env uspContext
    match ctx.authType with
    | .USP_AUTHENTICATION_SUBSCRIPTION_KEY =>
      let r := HTTPHeaders_ReplaceHeaderNameValuePair env h1
                g_requestHeaderOcpApimSubscriptionKey ctx.authData
      if r.1 = false then ⟨.USP_INITIALIZATION_FAILURE, ctx, some r.2, []⟩
      else transportInitializeTail env ctx endpoint r.2
    | .USP_AUTHENTICATION_AUTHORIZATION_TOKEN =>
      let bearerHeader := "Bearer"
      let tokenValue := ctx.authData.getD ""
      let tokenStrSize := bearerHeader.utf8ByteSize + tokenValue.utf8ByteSize + 1 + 1
      if env.malloc tokenStrSize = false then ⟨.USP_OUT_OF_MEMORY, ctx, some h1, []⟩
      else
        let tokenStr := bearerHeader ++ " " ++ tokenValue
        let r := HTTPHeaders_ReplaceHeaderNameValuePair env h1 g_requestHeaderAuthorization
                  (some tokenStr)
        ⟨if r.1 = false then .USP_INITIALIZATION_FAILURE else .USP_SUCCESS, ctx, some r.2, []⟩
    | .USP_AUTHENTICATION_SEARCH_DELEGATION_RPS_TOKEN =>
      let r := HTTPHeaders_ReplaceHeaderNameValuePair env h1
                g_requestHeaderSearchDelegationRPSToken ctx.authData
      if r.1 = false then ⟨.USP_INITIALIZATION_FAILURE, ctx, some r.2, []⟩
      else transportInitializeTail env ctx endpoint r.2
    | .other _ => ⟨.USP_INITIALIZATION_FAILURE, ctx, some h1, []⟩

/-- Function `TransportShutdown(uspContext)`: the result, the context afterwards, the calls made. -/
def TransportShutdown (uspContext : Option UspContext) :
    UspResult × Option UspContext × List Event :=
  match uspContext with
  | none => (handleNullResult, none, [])
  | some ctx =>
    let trace : List Event :=
      match ctx.transport with
      | some t => [.TransportRequestDestroy t]
      | none => []
    (.USP_SUCCESS, some { ctx with transport := none }, trace)

/-- Function `UspSetCallbacks(uspContext, callbacks, callbackContext)`: the result and the context
afterwards. -/
def UspSetCallbacks (env : Env) (uspContext : Option UspContext)
    (callbacks : Option UspCallbacks) (callbackContext : Nat) :
    UspResult × Option UspContext :=
  match uspContext with
  | none => (handleNullResult, none)
  | some ctx =>
    match callbacks with
    | none => (argumentNullResult, some ctx)
    | some cb =>
      if cb.version ≠ USP_CALLBACK_VERSION ∨ cb.size ≠ env.sizeofUspCallbacks then
        (.USP_INVALID_ARGUMENT, some ctx)
      else (.USP_SUCCESS, some { ctx with callbacks := some cb, callbackContext := callbackContext })

/-! ## Reference definitions taken from the specification -/

/-- The auth descriptor of the specification's data model: one of a subscription key, an
authorization token, a search-delegation RPS token, each with its text. -/
inductive AuthDescriptor
  | subscription_key (k : String)
  | authorization_token (t : String)
  | search_delegation_rps (t : String)
  deriving DecidableEq, Repr

/-- The auth header the specification assigns to an auth descriptor. -/
def specAuthHeader : AuthDescriptor → String × String
  | .subscription_key k => ("Ocp-Apim-Subscription-Key", k)
  | .authorization_token t => ("Authorization", "Bearer " ++ t)
  | .search_delegation_rps t => ("X-Search-DelegationRPSToken", t)

/-- The reference header table of the specification: the audio-codec and user-agent pairs
for a CDSDK endpoint, then the one auth pair. -/
def specHeaderTable (kind : UspEndpointType) (auth : AuthDescriptor) : HttpHeaders :=
  (if kind = .USP_ENDPOINT_CDSDK then
      [("X-Output-AudioCodec", "riff-16khz-16bit-mono-pcm"), ("User-Agent", g_userAgent)]
    else []) ++ [specAuthHeader auth]

/-- The auth descriptor a context carries: its auth kind together with its auth data, when
the data is set and the kind is one of the three. -/
def authDescriptorOf (ctx : UspContext) : Option AuthDescriptor :=
  match ctx.authData, ctx.authType with
  | some d, .USP_AUTHENTICATION_SUBSCRIPTION_KEY => some (.subscription_key d)
  | some d, .USP_AUTHENTICATION_AUTHORIZATION_TOKEN => some (.authorization_token d)
  | some d, .USP_AUTHENTICATION_SEARCH_DELEGATION_RPS_TOKEN => some (.search_delegation_rps d)
  | _, _ => none

/-- The literal subscription key of `TransportInitialize` (line 517), installed when the
context has no auth data. -/
def defaultSubscriptionKey : String := "92069ee289b84e5594a9564ab77ed2ba"

/-- The auth descriptor the header table is built for: the one the context carries when its
auth data is set; the subscription key `defaultSubscriptionKey` when its auth data is not
set, whatever auth kind is stored (the specification's design note: a literal default key
is installed when none is supplied). -/
def effectiveAuthDescriptor (ctx : UspContext) : Option AuthDescriptor :=
  match ctx.authData with
  | none => some (.subscription_key defaultSubscriptionKey)
  | some _ => authDescriptorOf ctx

/-- The system path table of the specification, row by row. -/
def specSystemTable : List (String × SystemMessageHandler) :=
  [ ("turn.start", .ContentPathHandler),
    ("turn.end", .TurnEndHandler),
    ("speech.startDetected", .SpeechStartHandler),
    ("speech.endDetected", .SpeechEndHandler),
    ("speech.hypothesis", .ContentPathHandler),
    ("speech.phrase", .ContentPathHandler),
    ("speech.fragment", .ContentPathHandler) ]

/-- Where the specification sends an inbound frame. -/
inductive Route
  | system (h : SystemMessageHandler)
  | user (entry : UserPathHandler)
  | unhandled
  deriving DecidableEq, Repr

/-- The reference routing of the specification: a path of the system table goes to the
handler of its row; otherwise the first entry of the user registry with an equal path is
taken; otherwise the frame is unhandled. -/
def specRoute (path : String) (registry : List UserPathHandler) : Route :=
  match specSystemTable.lookup path with
  | some h => .system h
  | none =>
    match registry.find? (fun entry => entry.path = path) with
    | some entry => .user entry
    | none => .unhandled

/-- The events that are invocations of a message handler: a system handler called through
the dispatch table, or a user path handler. -/
def Event.isHandlerCall : Event → Bool
  | .systemHandler _ _ _ _ _ => true
  | .userMessage _ _ _ _ _ _ => true
  | _ => false

/-! ## Sample inputs -/

/-- Collaborators that all succeed: every transport call returns 0, every allocation
succeeds, the transport created has handle 1; the code of
`USP_RETURN_ERROR_IF_CALLBACKS_NULL` is the one the specification gives. -/
def nominalEnv : Env where
  offsetBits := 64
  sizeofUspCallbacks := 80
  callbacksNullResult := callbacksNullResultOfSpec
  TransportMessageWrite := fun _ _ _ _ => 0
  TransportStreamPrepare := fun _ _ => 0
  TransportStreamWrite := fun _ _ _ => 0
  TransportStreamFlush := fun _ => 0
  TransportRequestCreate := fun _ _ _ => some 1
  HTTPHeaders_Alloc := true
  headerReplaceOk := fun _ _ _ => true
  STRING_construct := fun _ => true
  malloc := fun _ => true
  BUFFER_create := fun _ _ => true
  ContentDispatch := fun _ _ _ _ => .USP_SUCCESS

/-- A freshly configured context: CDSDK endpoint, subscription key, no transport. -/
def sampleContext : UspContext where
  type := .USP_ENDPOINT_CDSDK
  authType := .USP_AUTHENTICATION_SUBSCRIPTION_KEY
  authData := some "key"
  state := .USP_STATE_IDLE
  audioOffset := 0
  transport := none
  telemetry := 7
  dnsCache := 9
  callbacks := none
  callbackContext := 0
  userPathHandlerList := []

/-- A callback table of the accepted version with every slot set. -/
def sampleCallbacks : UspCallbacks where
  version := 1
  size := 80
  OnError := some 100
  onSpeechStartDetected := some 101
  onSpeechEndDetected := some 102
  onSpeechHypothesis := some 103
  onSpeechPhrase := some 104
  onSpeechFragment := some 105
  onTurnStart := some 106
  onTurnEnd := some 107

/-- A context set up with an authorization token and no transport. -/
def tokenContext : UspContext :=
  { sampleContext with
    authType := .USP_AUTHENTICATION_AUTHORIZATION_TOKEN
    authData := some "token" }

/-- A context without transport whose auth kind is authorization token and whose auth data
was never set. -/
def tokenKindWithoutDataContext : UspContext :=
  { sampleContext with
    authType := .USP_AUTHENTICATION_AUTHORIZATION_TOKEN
    authData := none }

/-- A connected context (transport 1) on which no callback table was installed. -/
def connectedContext : UspContext :=
  { sampleContext with state := .USP_STATE_CONNECTED, transport := some 1 }

/-- A connected context (transport 1) with `sampleCallbacks` installed. -/
def connectedContextWithCallbacks : UspContext :=
  { connectedContext with callbacks := some sampleCallbacks, callbackContext := 55 }

/-- Collaborators as in `nominalEnv`, except that `TransportStreamWrite` fails with -1. -/
def streamWriteFailsEnv : Env :=
  { nominalEnv with TransportStreamWrite := fun _ _ _ => -1 }

/-- Collaborators as in `nominalEnv`, except that `TransportStreamPrepare` fails with -1. -/
def streamPrepareFailsEnv : Env :=
  { nominalEnv with TransportStreamPrepare := fun _ _ => -1 }

/-- A connected context in the middle of an audio turn (48 bytes sent). -/
def midTurnContext : UspContext :=
  { connectedContext with audioOffset := 48 }

/-- A context with two user handlers registered under `custom.event` (functions 201 and
202) and one, function 203, under the system path `turn.end`. -/
def registryContext : UspContext :=
  { connectedContextWithCallbacks with
    userPathHandlerList :=
      [⟨"custom.event", some 201⟩, ⟨"turn.end", some 203⟩, ⟨"custom.event", some 202⟩] }

/-! ## Audio turns -/

/-- A run of `AudioStreamWrite` calls on one context, each with non-null data and a null
`bytesWritten`: the values returned, the context afterwards and the calls made, in order. -/
def audioStreamWrites (env : Env) :
    Option UspContext → List (Bytes × Nat) → List UspReturn × Option UspContext × List Event
  | ctx, [] => ([], ctx, [])
  | ctx, (data, size) :: rest =>
    let o := AudioStreamWrite env ctx (some data) size none
    let r := audioStreamWrites env o.ctx rest
    (o.ret :: r.1, r.2.1, o.trace ++ r.2.2)

/-- The calls made by a run of `AudioStreamWrite` calls followed by `AudioStreamFlush`. -/
def audioTurn (env : Env) (ctx : UspContext) (writes : List (Bytes × Nat)) : List Event :=
  (audioStreamWrites env (some ctx) writes).2.2 ++
    (AudioStreamFlush env (audioStreamWrites env (some ctx) writes).2.1).trace

/-- The events that are calls of `TransportStreamPrepare`. -/
def Event.isStreamPrepare : Event → Bool
  | .TransportStreamPrepare _ _ => true
  | _ => false

/-- The events that are calls of `TransportStreamWrite`. -/
def Event.isStreamWrite : Event → Bool
  | .TransportStreamWrite _ _ _ => true
  | _ => false

/-- A callback table whose version is not the accepted one. -/
def staleCallbacks : UspCallbacks :=
  { sampleCallbacks with version := 2 }

/-! ## Inbound handlers: sample inputs and event classes -/

/-- The events that are calls of a user callback of the callback table or of a user path
handler. -/
def Event.isUserCallback : Event → Bool
  | .OnError _ _ _ => true
  | .onSpeechStartDetected _ _ => true
  | .onSpeechEndDetected _ _ => true
  | .onTurnEnd _ _ => true
  | .userMessage _ _ _ _ _ _ => true
  | _ => false

/-- A callback table of the accepted version in which no slot is set. -/
def emptyCallbacks : UspCallbacks where
  version := 1
  size := 80
  OnError := none
  onSpeechStartDetected := none
  onSpeechEndDetected := none
  onSpeechHypothesis := none
  onSpeechPhrase := none
  onSpeechFragment := none
  onTurnStart := none
  onTurnEnd := none

/-- A connected context (transport 1) with `emptyCallbacks` installed. -/
def connectedContextEmptyCallbacks : UspContext :=
  { connectedContext with callbacks := some emptyCallbacks, callbackContext := 55 }

end Usp

/-! ## Positioned read/write ring buffer (`CSpxReadWriteRingBuffer`)

The implementation of the ring buffer (`read_write_ring_buffer.h` and its source file) is
not part of the source; only its unit test is. Every definition of this section is
therefore modelled from the specification. An operation returns its result, `none` when it
fails, together with the buffer afterwards. The blocking variant is not modelled.
-/

namespace RingBuffer

/-- Modelled from the spec: the state of `CSpxReadWriteRingBuffer`, whose implementation is
not in the source: a debug label, the capacity `N` (0 until `SetSize`), the backing store by
internal offset, the three absolute positions, the overflow mode and whether `Term` has
marked the buffer destroyed. -/
structure CSpxReadWriteRingBuffer where
  name : String
  size : Nat
  store : Nat → Nat
  initPos : Nat
  writePos : Nat
  readPos : Nat
  allowOverflow : Bool
  terminated : Bool

/-- Modelled from the spec: the buffer as constructed, which the absent constructor of
`CSpxReadWriteRingBuffer` yields: empty, not sized, all positions at the default 0. -/
def empty : CSpxReadWriteRingBuffer :=
  { name := "", size := 0, store := fun _ => 0, initPos := 0, writePos := 0, readPos := 0,
    allowOverflow := false, terminated := false }

/-- Modelled from the spec: the mapping of the absent implementation from an absolute
position `p` to an internal offset, `(p − init_pos) mod N`. -/
def internalOffset (N initPos p : Nat) : Nat := (p - initPos) % N

/-- Modelled from the spec: the copy into the backing store that the absent `Write` performs:
the bytes go to the internal offsets of the positions `p`, `p + 1`, ... in this order. -/
def putBytesAt (N initPos : Nat) : (Nat → Nat) → Nat → List Nat → (Nat → Nat)
  | store, _, [] => store
  | store, p, b :: bs =>
    putBytesAt N initPos (Function.update store (internalOffset N initPos p) b) (p + 1) bs

/-- Modelled from the spec: the copy out of the backing store that the absent read
operations perform: the bytes at the internal offsets of the positions `p`, ..., `p + n - 1`. -/
def getBytesAt (N initPos : Nat) (store : Nat → Nat) (p n : Nat) : List Nat :=
  (List.range n).map (fun i => store (internalOffset N initPos (p + i)))

/-- Modelled from the spec: the number of bytes available to `Read` in the absent
implementation, `write_pos − read_pos`. -/
def available (rb : CSpxReadWriteRingBuffer) : Nat := rb.writePos - rb.readPos

/-- Modelled from the spec: the free space of the absent implementation,
`N − (write_pos − read_pos)`. -/
def free (rb : CSpxReadWriteRingBuffer) : Nat := rb.size - available rb

/-- Modelled from the spec: `SetName(s)` of the absent implementation; sets the label and
never fails. -/
def SetName (rb : CSpxReadWriteRingBuffer) (s : String) :
    Option Unit × CSpxReadWriteRingBuffer :=
  (some (), { rb with name := s })

/-- Modelled from the spec: `SetSize(n)` of the absent implementation; takes `n > 0`,
allocates the backing store, and fails when the buffer is already sized with a non-zero
size other than `n`. -/
def SetSize (rb : CSpxReadWriteRingBuffer) (n : Nat) :
    Option Unit × CSpxReadWriteRingBuffer :=
  if n = 0 then (none, rb)
  else if rb.size ≠ 0 ∧ rb.size ≠ n then (none, rb)
  else (some (), { rb with size := n, store := fun _ => 0 })

/-- Modelled from the spec: `SetInitPos(p)` of the absent implementation; sets
`init_pos = read_pos = write_pos = p` and fails when bytes have already been written. -/
def SetInitPos (rb : CSpxReadWriteRingBuffer) (p : Nat) :
    Option Unit × CSpxReadWriteRingBuffer :=
  if rb.writePos ≠ rb.initPos then (none, rb)
  else (some (), { rb with initPos := p, readPos := p, writePos := p })

/-- Modelled from the spec: `AllowOverflow(b)` of the absent implementation; sets the
overflow mode and never fails. -/
def AllowOverflow (rb : CSpxReadWriteRingBuffer) (b : Bool) :
    Option Unit × CSpxReadWriteRingBuffer :=
  (some (), { rb with allowOverflow := b })

/-- Modelled from the spec: `Write(buf, n)` of the absent implementation, `data` being the
`n` bytes of `buf` (`n` may be 0). It fails on a terminated buffer, and when `n` exceeds the
free space with overflow disallowed. Otherwise it copies the bytes, advances `write_pos` by
`n` and, with overflow allowed and more than `N` bytes then pending, advances `read_pos` to
`write_pos − N`. A failure has no side effects. -/
def Write (rb : CSpxReadWriteRingBuffer) (data : List Nat) :
    Option Unit × CSpxReadWriteRingBuffer :=
  if rb.terminated then (none, rb)
  else if rb.allowOverflow = false ∧ free rb < data.length then (none, rb)
  else
    let writePos := rb.writePos + data.length
    (some (),
      { rb with
        store := putBytesAt rb.size rb.initPos rb.store rb.writePos data
        writePos := writePos
        readPos :=
          if rb.allowOverflow = true ∧ rb.size < writePos - rb.readPos then writePos - rb.size
          else rb.readPos })

/-- Modelled from the spec: `Read(buf, n, out_got?)` of the absent implementation; `outGot`
tells whether the optional count parameter is passed. It fails on a terminated buffer;
`n = 0` returns at once with no bytes; the strict form (no count parameter) fails unless `n`
bytes are available; otherwise `min(n, available)` bytes are copied from `read_pos` and
`read_pos` advances by that count. A failure has no side effects. -/
def Read (rb : CSpxReadWriteRingBuffer) (n : Nat) (outGot : Bool) :
    Option (List Nat) × CSpxReadWriteRingBuffer :=
  if rb.terminated then (none, rb)
  else if n = 0 then (some [], rb)
  else if outGot = false ∧ available rb < n then (none, rb)
  else
    let count := min n (available rb)
    (some (getBytesAt rb.size rb.initPos rb.store rb.readPos count),
      { rb with readPos := rb.readPos + count })

/-- Modelled from the spec: `ReadShared(n, out_got?)` of the absent implementation; the same
semantics as `Read`, the bytes being returned in a buffer of their own. -/
def ReadShared (rb : CSpxReadWriteRingBuffer) (n : Nat) (outGot : Bool) :
    Option (List Nat) × CSpxReadWriteRingBuffer :=
  Read rb n outGot

/-- Modelled from the spec: `ReadAtBytePos(p, buf, n, out_got?)` of the absent
implementation; reads from the absolute position `p` and does not move `read_pos`. It fails
on a terminated buffer, when `p < init_pos`, when the data at `p` has been overwritten
(`p` lies more than `N` below `write_pos`), and in the strict form when `p + n` exceeds
`write_pos`. The two mode remarks of the specification table are read as the mode in which
a failure typically arises: its scenario 3 and the unit test have the failure past
`write_pos` in overflow mode. -/
def ReadAtBytePos (rb : CSpxReadWriteRingBuffer) (p n : Nat) (outGot : Bool) :
    Option (List Nat) × CSpxReadWriteRingBuffer :=
  if rb.terminated then (none, rb)
  else if p < rb.initPos then (none, rb)
  else if p + rb.size < rb.writePos then (none, rb)
  else if outGot = false ∧ rb.writePos < p + n then (none, rb)
  else
    (some (getBytesAt rb.size rb.initPos rb.store p (min n (rb.writePos - p))), rb)

/-- Modelled from the spec: `ReadSharedAtBytePos(p, n, out_got?)` of the absent
implementation; the shared-copy variant of `ReadAtBytePos`. -/
def ReadSharedAtBytePos (rb : CSpxReadWriteRingBuffer) (p n : Nat) (outGot : Bool) :
    Option (List Nat) × CSpxReadWriteRingBuffer :=
  ReadAtBytePos rb p n outGot

/-- Modelled from the spec: `GetName` of the absent implementation; fails when terminated. -/
def GetName (rb : CSpxReadWriteRingBuffer) : Option String :=
  if rb.terminated then none else some rb.name

/-- Modelled from the spec: `GetSize` of the absent implementation; fails when terminated. -/
def GetSize (rb : CSpxReadWriteRingBuffer) : Option Nat :=
  if rb.terminated then none else some rb.size

/-- Modelled from the spec: `GetReadPos` of the absent implementation; fails when
terminated. -/
def GetReadPos (rb : CSpxReadWriteRingBuffer) : Option Nat :=
  if rb.terminated then none else some rb.readPos

/-- Modelled from the spec: `GetWritePos` of the absent implementation; fails when
terminated. -/
def GetWritePos (rb : CSpxReadWriteRingBuffer) : Option Nat :=
  if rb.terminated then none else some rb.writePos

/-- Modelled from the spec: `GetInitPos` of the absent implementation; fails when
terminated. -/
def GetInitPos (rb : CSpxReadWriteRingBuffer) : Option Nat :=
  if rb.terminated then none else some rb.initPos

/-- Modelled from the spec: `Term` of the absent implementation; marks the buffer destroyed
and never fails. -/
def Term (rb : CSpxReadWriteRingBuffer) : Option Unit × CSpxReadWriteRingBuffer :=
  (some (), { rb with terminated := true })

/-- Modelled from the spec: the operations of the absent `CSpxReadWriteRingBuffer`, as the
specification table lists them, with their arguments. -/
inductive Op
  | SetName (s : String)
  | SetSize (n : Nat)
  | SetInitPos (p : Nat)
  | AllowOverflow (b : Bool)
  | Write (data : List Nat)
  | Read (n : Nat) (outGot : Bool)
  | ReadShared (n : Nat) (outGot : Bool)
  | ReadAtBytePos (p n : Nat) (outGot : Bool)
  | ReadSharedAtBytePos (p n : Nat) (outGot : Bool)
  | GetName
  | GetSize
  | GetReadPos
  | GetWritePos
  | GetInitPos
  | Term
  deriving DecidableEq, Repr

/-- Modelled from the spec: the operations of the I/O phase of the absent implementation,
that is all but the four configuration setters, which the lifecycle places before the
first I/O. -/
def Op.isIO : Op → Bool
  | .SetName _ | .SetSize _ | .SetInitPos _ | .AllowOverflow _ => false
  | _ => true

/-- Modelled from the spec: the buffer of the absent implementation after one operation. -/
def step (rb : CSpxReadWriteRingBuffer) : Op → CSpxReadWriteRingBuffer
  | .SetName s => (SetName rb s).2
  | .SetSize n => (SetSize rb n).2
  | .SetInitPos p => (SetInitPos rb p).2
  | .AllowOverflow b => (AllowOverflow rb b).2
  | .Write data => (Write rb data).2
  | .Read n outGot => (Read rb n outGot).2
  | .ReadShared n outGot => (ReadShared rb n outGot).2
  | .ReadAtBytePos p n outGot => (ReadAtBytePos rb p n outGot).2
  | .ReadSharedAtBytePos p n outGot => (ReadSharedAtBytePos rb p n outGot).2
  | .GetName | .GetSize | .GetReadPos | .GetWritePos | .GetInitPos => rb
  | .Term => (Term rb).2

/-- Modelled from the spec: the buffer of the absent implementation after a sequence of
operations. -/
def run (rb : CSpxReadWriteRingBuffer) (ops : List Op) : CSpxReadWriteRingBuffer :=
  ops.foldl step rb

/-- Modelled from the spec: the bytes an operation of the absent implementation hands back
when it is a read that succeeds, no bytes otherwise. -/
def bytesRead (rb : CSpxReadWriteRingBuffer) : Op → List Nat
  | .Read n outGot => ((Read rb n outGot).1).getD []
  | .ReadShared n outGot => ((ReadShared rb n outGot).1).getD []
  | .ReadAtBytePos p n outGot => ((ReadAtBytePos rb p n outGot).1).getD []
  | .ReadSharedAtBytePos p n outGot => ((ReadSharedAtBytePos rb p n outGot).1).getD []
  | _ => []

/-- Modelled from the spec: the concatenation of the bytes returned by the reads of a
sequence of operations on the absent implementation. -/
def outputs : CSpxReadWriteRingBuffer → List Op → List Nat
  | _, [] => []
  | rb, op :: rest => bytesRead rb op ++ outputs (step rb op) rest

/-- Modelled from the spec: the bytes an operation puts into the absent implementation:
the data of a `Write` that succeeds, no bytes otherwise. -/
def bytesWritten (rb : CSpxReadWriteRingBuffer) : Op → List Nat
  | .Write data => if (Write rb data).1 = none then [] else data
  | _ => []

/-- Modelled from the spec: the bytes a sequence of operations writes into the absent
implementation: the data of its `Write` operations that succeed, in order. -/
def written : CSpxReadWriteRingBuffer → List Op → List Nat
  | _, [] => []
  | rb, op :: rest => bytesWritten rb op ++ written (step rb op) rest

/-- Modelled from the spec: the byte sequence `B` a sequence of operations submits in
chunks: the data of its `Write` operations, in order. -/
def chunks : List Op → List Nat
  | [] => []
  | .Write data :: rest => data ++ chunks rest
  | _ :: rest => chunks rest

/-- Modelled from the spec: the total length requested by the strict `Read` and `ReadShared`
operations of a sequence. -/
def readTotal : List Op → Nat
  | [] => 0
  | .Read n false :: rest => n + readTotal rest
  | .ReadShared n false :: rest => n + readTotal rest
  | _ :: rest => readTotal rest

/-- Modelled from the spec: the condition of the round trip on a sequence run on the absent
implementation: it consists of `Write`, strict `Read` and strict `ReadShared` operations,
no `Write` exceeds the free space and no read exceeds the available bytes, each at the
state in which it is issued. -/
def fits : CSpxReadWriteRingBuffer → List Op → Bool
  | _, [] => true
  | rb, op :: rest =>
    (match op with
      | .Write data => decide (data.length ≤ free rb)
      | .Read n false => decide (n ≤ available rb)
      | .ReadShared n false => decide (n ≤ available rb)
      | _ => false) && fits (step rb op) rest

/-- Modelled from the spec: the buffer of the absent implementation at the start of its
I/O phase, after `SetSize(N)`, `SetInitPos(p0)` and `AllowOverflow(overflow)` on the buffer
as constructed. -/
def fresh (N p0 : Nat) (overflow : Bool) : CSpxReadWriteRingBuffer :=
  { empty with size := N, initPos := p0, writePos := p0, readPos := p0,
               allowOverflow := overflow }

/-- Modelled from the spec: a full buffer of capacity 1024 in overflow mode, as in
scenario 3: the bytes `i mod 256` at the positions 0 to 1023. -/
def fullOverflowBuffer : CSpxReadWriteRingBuffer :=
  { fresh 1024 0 true with store := fun i => i % 256, writePos := 1024 }

/-- The link between a buffer and the bytes `W` written into it since `init_pos`:
`write_pos` lies `|W|` above `init_pos`, and the backing store holds, at the internal
offset of its position, every byte of `W` that is less than `N` below `write_pos`. -/
def Holds (rb : CSpxReadWriteRingBuffer) (W : List Nat) : Prop :=
  rb.writePos = rb.initPos + W.length ∧
  ∀ i, i < W.length → W.length ≤ i + rb.size →
    rb.store (internalOffset rb.size rb.initPos (rb.initPos + i)) = W.getD i 0

/-- A sequence of operations that wraps around a store of five bytes starting at position
7: seven bytes are written in two chunks and read back in two chunks. -/
def wrappingOps : List Op :=
  [.Write [1, 2, 3], .Read 2 false, .Write [4, 5, 6, 7], .ReadShared 5 false]

end RingBuffer

namespace Usp

/-! ## Properties -/

/-! ## Transport set-up (C1, C2) -/

/-- A context with auth data passes the default-key block unchanged. -/
theorem defaultAuth_of_authData (env : Env) (ctx : UspContext) (h : ctx.authData ≠ none) :
    defaultAuth env ctx = ctx := by
  simp [defaultAuth, h]

/-- The default-key block touches only the auth kind and the auth data. -/
theorem defaultAuth_fields (env : Env) (ctx : UspContext) :
    (defaultAuth env ctx).telemetry = ctx.telemetry ∧
    (defaultAuth env ctx).dnsCache = ctx.dnsCache ∧
    (defaultAuth env ctx).type = ctx.type ∧
    (defaultAuth env ctx).transport = ctx.transport := by
  unfold defaultAuth
  split <;> simp

/-- When the end of `TransportInitialize` reports success, the transport was created from
the endpoint and the table, stored, and given the DNS cache and the callbacks. -/
theorem transportInitializeTail_success (env : Env) (ctx : UspContext) (endpoint : String)
    (headers : HttpHeaders)
    (hS : (transportInitializeTail env ctx endpoint headers).ret = .USP_SUCCESS) :
    ∃ t,
      (transportInitializeTail env ctx endpoint headers).connectionHeaders = some headers ∧
      env.TransportRequestCreate endpoint ctx.telemetry headers = some t ∧
      (transportInitializeTail env ctx endpoint headers).ctx.transport = some t ∧
      (transportInitializeTail env ctx endpoint headers).trace =
        [.TransportRequestCreate endpoint ctx.telemetry headers,
         .TransportSetDnsCache t ctx.dnsCache,
         .TransportSetCallbacks t,
         .HTTPHeaders_Free headers] := by
  unfold transportInitializeTail at hS ⊢
  cases hc : env.TransportRequestCreate endpoint ctx.telemetry headers with
  | none => simp [hc] at hS
  | some t => exact ⟨t, by simp⟩

/-- In the auth kinds whose `case` ends in `break` (subscription key, also as the default
for a context without auth data, and RPS token), a `USP_SUCCESS` of `TransportInitialize`
comes with the transport created from the endpoint and the built table, stored in the
context, with the DNS cache and the callbacks attached. -/
theorem TransportInitialize_success_unless_token (env : Env) (ctx : UspContext)
    (endpoint : String)
    (hK : (defaultAuth env ctx).authType ≠ .USP_AUTHENTICATION_AUTHORIZATION_TOKEN)
    (hS : (TransportInitialize env ctx endpoint).ret = .USP_SUCCESS) :
    ∃ t headers,
      (TransportInitialize env ctx endpoint).connectionHeaders = some headers ∧
      env.TransportRequestCreate endpoint ctx.telemetry headers = some t ∧
      (TransportInitialize env ctx endpoint).ctx.transport = some t ∧
      (TransportInitialize env ctx endpoint).trace =
        [.TransportRequestCreate endpoint ctx.telemetry headers,
         .TransportSetDnsCache t ctx.dnsCache,
         .TransportSetCallbacks t,
         .HTTPHeaders_Free headers] := by
  obtain ⟨hte, hdc, -, -⟩ := defaultAuth_fields env ctx
  by_cases hT : ctx.transport ≠ none
  · simp [TransportInitialize, hT] at hS
  by_cases hA : env.HTTPHeaders_Alloc = false
  · simp [TransportInitialize, hT, hA] at hS
  have key : ∀ r : Bool × HttpHeaders,
      (if r.1 = false then
          (⟨.USP_INITIALIZATION_FAILURE, defaultAuth env ctx, some r.2, []⟩ : InitOutcome)
        else transportInitializeTail env (defaultAuth env ctx) endpoint r.2).ret
        = .USP_SUCCESS →
      ∃ t headers,
        (if r.1 = false then
          (⟨.USP_INITIALIZATION_FAILURE, defaultAuth env ctx, some r.2, []⟩ : InitOutcome)
        else transportInitializeTail env (defaultAuth env ctx) endpoint r.2).connectionHeaders
          = some headers ∧
        env.TransportRequestCreate endpoint ctx.telemetry headers = some t ∧
        (if r.1 = false then
          (⟨.USP_INITIALIZATION_FAILURE, defaultAuth env ctx, some r.2, []⟩ : InitOutcome)
        else transportInitializeTail env (defaultAuth env ctx) endpoint r.2).ctx.transport
          = some t ∧
        (if r.1 = false then
          (⟨.USP_INITIALIZATION_FAILURE, defaultAuth env ctx, some r.2, []⟩ : InitOutcome)
        else transportInitializeTail env (defaultAuth env ctx) endpoint r.2).trace =
          [.TransportRequestCreate endpoint ctx.telemetry headers,
           .TransportSetDnsCache t ctx.dnsCache,
           .TransportSetCallbacks t,
           .HTTPHeaders_Free headers] := by
    intro r hr
    by_cases h1 : r.1 = false
    · simp [h1] at hr
    · simp only [h1, if_false] at hr ⊢
      obtain ⟨t, h⟩ := transportInitializeTail_success env _ endpoint _ hr
      rw [hte, hdc] at h
      exact ⟨t, _, h⟩
  revert hS
  unfold TransportInitialize
  rw [if_neg hT, if_neg hA]
  cases hty : (defaultAuth env ctx).authType with
  | USP_AUTHENTICATION_AUTHORIZATION_TOKEN => exact absurd hty hK
  | other v => simp [hty]
  | USP_AUTHENTICATION_SUBSCRIPTION_KEY => simp only [hty]; exact key _
  | USP_AUTHENTICATION_SEARCH_DELEGATION_RPS_TOKEN => simp only [hty]; exact key _

/-- In the authorization-token case no outcome of `TransportInitialize`, a `USP_SUCCESS`
included, creates a transport: the context keeps its null transport and no transport call
is made. -/
theorem TransportInitialize_token_never_creates (env : Env) (ctx : UspContext)
    (endpoint : String) (hT : ctx.transport = none)
    (hK : ctx.authType = .USP_AUTHENTICATION_AUTHORIZATION_TOKEN)
    (hD : ctx.authData ≠ none) :
    (TransportInitialize env ctx endpoint).ctx.transport = none ∧
    (TransportInitialize env ctx endpoint).trace = [] := by
  unfold TransportInitialize
  rw [if_neg (by simp [hT])]
  simp only [defaultAuth_of_authData env ctx hD, hK]
  split_ifs <;> exact ⟨hT, rfl⟩

/-- C1 (code as it is): with an authorization token, `TransportInitialize` returns
`USP_SUCCESS` from inside the `switch` while the context still has no transport and no
transport call (create, DNS cache, callbacks) has been made. -/
theorem TransportInitialize_token_success_without_transport :
    tokenContext.transport = none ∧
    (TransportInitialize nominalEnv tokenContext "wss://speech").ret = .USP_SUCCESS ∧
    (TransportInitialize nominalEnv tokenContext "wss://speech").ctx.transport = none ∧
    (TransportInitialize nominalEnv tokenContext "wss://speech").trace = [] := by
  decide

/-- With a library that never refuses, replacing a header updates the table. -/
theorem HTTPHeaders_ReplaceHeaderNameValuePair_ok (env : Env)
    (hReplace : ∀ h n v, env.headerReplaceOk h n v = true) (h : HttpHeaders) (n v : String) :
    HTTPHeaders_ReplaceHeaderNameValuePair env h n (some v) = (true, replaceHeader h n v) := by
  simp [HTTPHeaders_ReplaceHeaderNameValuePair, hReplace]

/-- With a library that never refuses, the endpoint block yields the two CDSDK pairs for a
CDSDK endpoint and nothing otherwise. -/
theorem endpointHeaders_ok (env : Env)
    (hReplace : ∀ h n v, env.headerReplaceOk h n v = true) (type : UspEndpointType) :
    endpointHeaders env type =
      if type = .USP_ENDPOINT_CDSDK then
        [("X-Output-AudioCodec", "riff-16khz-16bit-mono-pcm"), ("User-Agent", g_userAgent)]
      else [] := by
  unfold endpointHeaders
  split
  · simp only [HTTPHeaders_ReplaceHeaderNameValuePair_ok env hReplace]
    decide
  · rfl

/-- The end of `TransportInitialize` leaves the table as it received it. -/
theorem transportInitializeTail_connectionHeaders (env : Env) (ctx : UspContext)
    (endpoint : String) (headers : HttpHeaders) :
    (transportInitializeTail env ctx endpoint headers).connectionHeaders = some headers := by
  unfold transportInitializeTail
  split <;> rfl

/-- Replacing a name other than the two CDSDK names adds it after the endpoint pairs. -/
theorem replaceHeader_endpoint (type : UspEndpointType) (name value : String)
    (h1 : name ≠ "X-Output-AudioCodec") (h2 : name ≠ "User-Agent") :
    replaceHeader
      (if type = .USP_ENDPOINT_CDSDK then
        [("X-Output-AudioCodec", "riff-16khz-16bit-mono-pcm"), ("User-Agent", g_userAgent)]
       else []) name value =
      (if type = .USP_ENDPOINT_CDSDK then
        [("X-Output-AudioCodec", "riff-16khz-16bit-mono-pcm"), ("User-Agent", g_userAgent)]
       else []) ++ [(name, value)] := by
  cases type <;> simp [replaceHeader, Ne.symm h1, Ne.symm h2]

/-- The header table of a context whose auth data is set: for every context without a
transport that carries one of the three auth descriptors, when the header table can be
allocated and filled, the table `TransportInitialize` builds is the reference table of the
specification: the audio-codec and user-agent pairs exactly for a CDSDK endpoint, and the
one pair of the auth kind. For CDSDK with a subscription key its names are
`X-Output-AudioCodec`, `User-Agent`, `Ocp-Apim-Subscription-Key`. -/
theorem TransportInitialize_headers_eq_reference (env : Env) (ctx : UspContext)
    (endpoint : String) (auth : AuthDescriptor)
    (hT : ctx.transport = none)
    (hAuth : authDescriptorOf ctx = some auth)
    (hAlloc : env.HTTPHeaders_Alloc = true)
    (hReplace : ∀ h n v, env.headerReplaceOk h n v = true)
    (hMalloc : ∀ n, env.malloc n = true) :
    (TransportInitialize env ctx endpoint).connectionHeaders =
        some (specHeaderTable ctx.type auth) ∧
    ((("X-Output-AudioCodec", "riff-16khz-16bit-mono-pcm") ∈ specHeaderTable ctx.type auth ∧
      ("User-Agent", g_userAgent) ∈ specHeaderTable ctx.type auth) ↔
        ctx.type = .USP_ENDPOINT_CDSDK) ∧
    (∀ k, ctx.type = .USP_ENDPOINT_CDSDK → auth = .subscription_key k →
      ∀ name, name ∈ (specHeaderTable ctx.type auth).map Prod.fst ↔
        name = "Ocp-Apim-Subscription-Key" ∨ name = "X-Output-AudioCodec" ∨
          name = "User-Agent") := by
  have hD : ctx.authData ≠ none := by
    intro h
    simp [authDescriptorOf, h] at hAuth
  refine ⟨?_, ?_, ?_⟩
  · unfold TransportInitialize
    simp only [hT, hAlloc, defaultAuth_of_authData env ctx hD, endpointHeaders_ok env hReplace,
      ne_eq, not_true_eq_false, if_false, Bool.true_eq_false]
    cases hd : ctx.authData with
    | none => exact absurd hd hD
    | some d =>
      cases hty : ctx.authType with
      | other v => simp [authDescriptorOf, hd, hty] at hAuth
      | USP_AUTHENTICATION_SUBSCRIPTION_KEY =>
        simp [authDescriptorOf, hd, hty] at hAuth
        subst hAuth
        simp only [HTTPHeaders_ReplaceHeaderNameValuePair_ok env hReplace,
          Bool.true_eq_false, if_false, transportInitializeTail_connectionHeaders]
        rw [replaceHeader_endpoint _ _ _ (by decide) (by decide)]
        rfl
      | USP_AUTHENTICATION_AUTHORIZATION_TOKEN =>
        simp [authDescriptorOf, hd, hty] at hAuth
        subst hAuth
        simp only [HTTPHeaders_ReplaceHeaderNameValuePair_ok env hReplace, hMalloc,
          Bool.true_eq_false, if_false]
        rw [replaceHeader_endpoint _ _ _ (by decide) (by decide)]
        simp [specHeaderTable, specAuthHeader, g_requestHeaderAuthorization]
      | USP_AUTHENTICATION_SEARCH_DELEGATION_RPS_TOKEN =>
        simp [authDescriptorOf, hd, hty] at hAuth
        subst hAuth
        simp only [HTTPHeaders_ReplaceHeaderNameValuePair_ok env hReplace,
          Bool.true_eq_false, if_false, transportInitializeTail_connectionHeaders]
        rw [replaceHeader_endpoint _ _ _ (by decide) (by decide)]
        rfl
  · cases auth <;> cases ctx.type <;>
      simp [specHeaderTable, specAuthHeader, g_userAgent]
  · intro k hc ha name
    subst ha
    simp [specHeaderTable, specAuthHeader, hc]
    tauto

/-- An instance of `TransportInitialize_headers_eq_reference`: a CDSDK context with the
subscription key `key`. -/
theorem TransportInitialize_headers_eq_reference_witness :
    sampleContext.transport = none ∧
    authDescriptorOf sampleContext = some (.subscription_key "key") ∧
    (TransportInitialize nominalEnv sampleContext "wss://speech").connectionHeaders =
      some [("X-Output-AudioCodec", "riff-16khz-16bit-mono-pcm"), ("User-Agent", g_userAgent),
            ("Ocp-Apim-Subscription-Key", "key")] :=
  ⟨rfl, rfl,
    (TransportInitialize_headers_eq_reference nominalEnv sampleContext "wss://speech"
      (.subscription_key "key") rfl rfl rfl (fun _ _ _ => rfl) (fun _ => rfl)).1⟩

/-- With a `STRING_construct` that succeeds, the default-key block turns a context without
auth data into one with the subscription-key kind and the literal key. -/
theorem defaultAuth_of_no_authData (env : Env) (ctx : UspContext)
    (hString : ∀ s, env.STRING_construct s = true) (h : ctx.authData = none) :
    defaultAuth env ctx =
      { ctx with
        authType := .USP_AUTHENTICATION_SUBSCRIPTION_KEY
        authData := some defaultSubscriptionKey } := by
  simp [defaultAuth, h, hString, defaultSubscriptionKey]

/-- C2 as stated fails: a CDSDK context without a transport whose auth kind is
authorization token and whose auth data is not set does not get the `Authorization` pair of
its auth kind. The default-key block (lines 514 to 518) overwrites the auth kind, and the
table built is the audio-codec pair, the user-agent pair and the pair
`Ocp-Apim-Subscription-Key` with the literal key, which is the reference table of no
authorization token. -/
theorem TransportInitialize_token_kind_without_data :
    tokenKindWithoutDataContext.transport = none ∧
    tokenKindWithoutDataContext.type = .USP_ENDPOINT_CDSDK ∧
    tokenKindWithoutDataContext.authType = .USP_AUTHENTICATION_AUTHORIZATION_TOKEN ∧
    tokenKindWithoutDataContext.authData = none ∧
    (TransportInitialize nominalEnv tokenKindWithoutDataContext "wss://speech").connectionHeaders =
      some [("X-Output-AudioCodec", "riff-16khz-16bit-mono-pcm"), ("User-Agent", g_userAgent),
            ("Ocp-Apim-Subscription-Key", "92069ee289b84e5594a9564ab77ed2ba")] ∧
    (TransportInitialize nominalEnv tokenKindWithoutDataContext "wss://speech").ctx.authType =
      .USP_AUTHENTICATION_SUBSCRIPTION_KEY ∧
    (∀ t,
      (TransportInitialize nominalEnv tokenKindWithoutDataContext
          "wss://speech").connectionHeaders ≠
        some (specHeaderTable .USP_ENDPOINT_CDSDK (.authorization_token t))) := by
  have hTable :
      (TransportInitialize nominalEnv tokenKindWithoutDataContext
          "wss://speech").connectionHeaders =
        some [("X-Output-AudioCodec", "riff-16khz-16bit-mono-pcm"), ("User-Agent", g_userAgent),
              ("Ocp-Apim-Subscription-Key", "92069ee289b84e5594a9564ab77ed2ba")] := by
    decide
  refine ⟨rfl, rfl, rfl, rfl, hTable, by decide, ?_⟩
  intro t h
  rw [hTable] at h
  simp [specHeaderTable, specAuthHeader] at h

/-- C2 as amended: for every context without a transport whose auth data is set with one of
the three auth kinds, or whose auth data is not set, when the header table can be allocated
and filled and the literal key can be copied, the table `TransportInitialize` builds is the
reference table of the specification for the auth descriptor in effect: the audio-codec and
user-agent pairs exactly for a CDSDK endpoint, then one auth pair. With auth data set the
descriptor is the one the context carries, so the pair is the one of the auth kind; without
auth data it is the subscription key `92069ee289b84e5594a9564ab77ed2ba`, whatever auth
kind is stored. For CDSDK with a subscription key the names of the table are
`X-Output-AudioCodec`, `User-Agent`, `Ocp-Apim-Subscription-Key`. -/
theorem TransportInitialize_headers_with_default_key (env : Env) (ctx : UspContext)
    (endpoint : String) (auth : AuthDescriptor)
    (hT : ctx.transport = none)
    (hAuth : effectiveAuthDescriptor ctx = some auth)
    (hAlloc : env.HTTPHeaders_Alloc = true)
    (hReplace : ∀ h n v, env.headerReplaceOk h n v = true)
    (hMalloc : ∀ n, env.malloc n = true)
    (hString : ∀ s, env.STRING_construct s = true) :
    (TransportInitialize env ctx endpoint).connectionHeaders =
        some (specHeaderTable ctx.type auth) ∧
    (ctx.authData = none →
      auth = .subscription_key "92069ee289b84e5594a9564ab77ed2ba" ∧
      (TransportInitialize env ctx endpoint).connectionHeaders =
        some ((if ctx.type = .USP_ENDPOINT_CDSDK then
            [("X-Output-AudioCodec", "riff-16khz-16bit-mono-pcm"), ("User-Agent", g_userAgent)]
          else []) ++
          [("Ocp-Apim-Subscription-Key", "92069ee289b84e5594a9564ab77ed2ba")])) ∧
    (ctx.authData ≠ none → authDescriptorOf ctx = some auth) ∧
    ((("X-Output-AudioCodec", "riff-16khz-16bit-mono-pcm") ∈ specHeaderTable ctx.type auth ∧
      ("User-Agent", g_userAgent) ∈ specHeaderTable ctx.type auth) ↔
        ctx.type = .USP_ENDPOINT_CDSDK) ∧
    (∀ k, ctx.type = .USP_ENDPOINT_CDSDK → auth = .subscription_key k →
      ∀ name, name ∈ (specHeaderTable ctx.type auth).map Prod.fst ↔
        name = "Ocp-Apim-Subscription-Key" ∨ name = "X-Output-AudioCodec" ∨
          name = "User-Agent") := by
  have hNone : ctx.authData = none →
      auth = .subscription_key "92069ee289b84e5594a9564ab77ed2ba" ∧
      (TransportInitialize env ctx endpoint).connectionHeaders =
        some ((if ctx.type = .USP_ENDPOINT_CDSDK then
            [("X-Output-AudioCodec", "riff-16khz-16bit-mono-pcm"), ("User-Agent", g_userAgent)]
          else []) ++
          [("Ocp-Apim-Subscription-Key", "92069ee289b84e5594a9564ab77ed2ba")]) := by
    intro hd
    refine ⟨?_, ?_⟩
    · simp [effectiveAuthDescriptor, hd, defaultSubscriptionKey] at hAuth
      exact hAuth.symm
    · unfold TransportInitialize
      simp only [hT, hAlloc, defaultAuth_of_no_authData env ctx hString hd,
        endpointHeaders_ok env hReplace, ne_eq, not_true_eq_false, if_false,
        Bool.true_eq_false, HTTPHeaders_ReplaceHeaderNameValuePair_ok env hReplace,
        transportInitializeTail_connectionHeaders]
      rw [replaceHeader_endpoint _ _ _ (by decide) (by decide)]
      rfl
  have hSome : ctx.authData ≠ none → authDescriptorOf ctx = some auth := by
    intro hd
    cases hv : ctx.authData with
    | none => exact absurd hv hd
    | some d => simpa [effectiveAuthDescriptor, hv] using hAuth
  refine ⟨?_, hNone, hSome, ?_, ?_⟩
  · by_cases hd : ctx.authData = none
    · obtain ⟨ha, ht⟩ := hNone hd
      rw [ht, ha]
      rfl
    · exact (TransportInitialize_headers_eq_reference env ctx endpoint auth hT (hSome hd)
        hAlloc hReplace hMalloc).1
  · cases auth <;> cases ctx.type <;>
      simp [specHeaderTable, specAuthHeader, g_userAgent]
  · intro k hc ha name
    subst ha
    simp [specHeaderTable, specAuthHeader, hc]
    tauto

/-- Witness of `TransportInitialize_headers_with_default_key`: a CDSDK context of the
authorization-token kind without auth data gets the literal subscription key. -/
theorem TransportInitialize_headers_with_default_key_witness :
    tokenKindWithoutDataContext.transport = none ∧
    effectiveAuthDescriptor tokenKindWithoutDataContext =
      some (.subscription_key "92069ee289b84e5594a9564ab77ed2ba") ∧
    (TransportInitialize nominalEnv tokenKindWithoutDataContext "wss://speech").connectionHeaders =
      some (specHeaderTable .USP_ENDPOINT_CDSDK
        (.subscription_key "92069ee289b84e5594a9564ab77ed2ba")) :=
  ⟨rfl, rfl,
    (TransportInitialize_headers_with_default_key nominalEnv tokenKindWithoutDataContext
      "wss://speech" (.subscription_key "92069ee289b84e5594a9564ab77ed2ba") rfl rfl rfl
      (fun _ _ _ => rfl) (fun _ => rfl) (fun _ => rfl)).1⟩

/-! ## Transport errors (C3, C4) -/

/-- A string other than the empty one has a non-zero `strlen`. -/
theorem length_ne_zero_of_ne_empty (p : String) (h : p ≠ "") : p.length ≠ 0 := by
  intro hl
  apply h
  cases p with
  | mk d =>
    simp only [String.length, List.length_eq_zero] at hl
    subst hl
    rfl

/-- C3: with an `OnError` callback registered, `TransportErrorHandler` makes exactly one
call, to that callback with the user callback context, and the error it passes is fixed by
the reason: authentication gives `USP_AUTH_ERROR` "Authentication error (401/403).",
connection failure and DNS failure give `USP_CONNECTION_FAILURE`, remote close gives
`USP_CONNECTION_REMOTE_CLOSED`, none gives `USP_TRANSPORT_ERROR_GENERIC`
"Unknown transport error.". -/
theorem TransportErrorHandler_reports (ctx : UspContext) (callbacks : UspCallbacks) (fn : Nat)
    (hC : ctx.callbacks = some callbacks) (hE : callbacks.OnError = some fn) :
    (TransportErrorHandler .TRANSPORT_ERROR_AUTHENTICATION ctx).2 =
      [.OnError fn ctx.callbackContext
        ⟨.USP_AUTH_ERROR, "Authentication error (401/403)."⟩] ∧
    (TransportErrorHandler .TRANSPORT_ERROR_CONNECTION_FAILURE ctx).2 =
      [.OnError fn ctx.callbackContext
        ⟨.USP_CONNECTION_FAILURE, "Connection failed (no connection to the remote host)."⟩] ∧
    (TransportErrorHandler .TRANSPORT_ERROR_DNS_FAILURE ctx).2 =
      [.OnError fn ctx.callbackContext
        ⟨.USP_CONNECTION_FAILURE, "Connection failed (the remote host did not respond)."⟩] ∧
    (TransportErrorHandler .TRANSPORT_ERROR_REMOTECLOSED ctx).2 =
      [.OnError fn ctx.callbackContext
        ⟨.USP_CONNECTION_REMOTE_CLOSED, "Connection was closed by the remote host."⟩] ∧
    (TransportErrorHandler .TRANSPORT_ERROR_NONE ctx).2 =
      [.OnError fn ctx.callbackContext
        ⟨.USP_TRANSPORT_ERROR_GENERIC, "Unknown transport error."⟩] := by
  simp [TransportErrorHandler, hC, hE, transportErrorOf]

/-- Witness of `TransportErrorHandler_reports`: a context whose callback table has
`OnError` set to function 100 and whose callback context is 55. -/
theorem TransportErrorHandler_reports_witness :
    connectedContextWithCallbacks.callbacks = some sampleCallbacks ∧
    sampleCallbacks.OnError = some 100 ∧
    (TransportErrorHandler .TRANSPORT_ERROR_AUTHENTICATION connectedContextWithCallbacks).2 =
      [.OnError 100 55 ⟨.USP_AUTH_ERROR, "Authentication error (401/403)."⟩] :=
  ⟨rfl, rfl,
    (TransportErrorHandler_reports connectedContextWithCallbacks sampleCallbacks 100 rfl rfl).1⟩

/-- C4 as stated fails: on a connected context, with or without a callback table, after
`TransportErrorHandler` ran for an authentication error the state is still connected, not
error, and a `MessageWrite` with valid arguments then returns `USP_SUCCESS`, not
`USP_WRONG_STATE`. -/
theorem TransportErrorHandler_auth_state_not_error :
    connectedContext.state = .USP_STATE_CONNECTED ∧
    (TransportErrorHandler .TRANSPORT_ERROR_AUTHENTICATION connectedContext).1.state
      ≠ .USP_STATE_ERROR ∧
    (MessageWrite nominalEnv
      (some (TransportErrorHandler .TRANSPORT_ERROR_AUTHENTICATION connectedContext).1)
      (some "speech.context") (some [1, 2, 3]) 3).1 ≠ .USP_WRONG_STATE ∧
    connectedContextWithCallbacks.state = .USP_STATE_CONNECTED ∧
    (TransportErrorHandler .TRANSPORT_ERROR_AUTHENTICATION
      connectedContextWithCallbacks).1.state ≠ .USP_STATE_ERROR ∧
    (MessageWrite nominalEnv
      (some (TransportErrorHandler .TRANSPORT_ERROR_AUTHENTICATION
        connectedContextWithCallbacks).1)
      (some "speech.context") (some [1, 2, 3]) 3).1 ≠ .USP_WRONG_STATE := by
  decide

/-- C4 as amended: on a connected context `TransportErrorHandler`, run for an authentication
error, changes no field of the context, so the state stays connected; a following
`MessageWrite` with non-null data and a non-empty path makes one `TransportMessageWrite`
call and returns `USP_SUCCESS` if that returns 0 and `USP_TRANSPORT_ERROR_GENERIC`
otherwise. -/
theorem TransportErrorHandler_auth_keeps_connected (env : Env) (ctx : UspContext)
    (path : String) (data : Bytes) (size : Nat)
    (hS : ctx.state = .USP_STATE_CONNECTED) (hP : path ≠ "") :
    (TransportErrorHandler .TRANSPORT_ERROR_AUTHENTICATION ctx).1 = ctx ∧
    (TransportErrorHandler .TRANSPORT_ERROR_AUTHENTICATION ctx).1.state
      = .USP_STATE_CONNECTED ∧
    MessageWrite env (some (TransportErrorHandler .TRANSPORT_ERROR_AUTHENTICATION ctx).1)
        (some path) (some data) size =
      (if env.TransportMessageWrite ctx.transport path data size = 0 then .USP_SUCCESS
        else .USP_TRANSPORT_ERROR_GENERIC,
       [.TransportMessageWrite ctx.transport path data size]) := by
  have h1 : (TransportErrorHandler .TRANSPORT_ERROR_AUTHENTICATION ctx).1 = ctx := by
    unfold TransportErrorHandler
    split
    · rfl
    · split <;> rfl
  have hl : path.length ≠ 0 := length_ne_zero_of_ne_empty path hP
  refine ⟨h1, by rw [h1]; exact hS, ?_⟩
  rw [h1]
  simp [MessageWrite, hS, hl]

/-- Witness of `TransportErrorHandler_auth_keeps_connected`. -/
theorem TransportErrorHandler_auth_keeps_connected_witness :
    connectedContextWithCallbacks.state = .USP_STATE_CONNECTED ∧ "speech.context" ≠ "" ∧
    MessageWrite nominalEnv
        (some (TransportErrorHandler .TRANSPORT_ERROR_AUTHENTICATION
          connectedContextWithCallbacks).1)
        (some "speech.context") (some [1, 2, 3]) 3 =
      (.USP_SUCCESS, [.TransportMessageWrite (some 1) "speech.context" [1, 2, 3] 3]) :=
  ⟨rfl, by decide,
    (TransportErrorHandler_auth_keeps_connected nominalEnv connectedContextWithCallbacks
      "speech.context" [1, 2, 3] 3 rfl (by decide)).2.2⟩

/-! ## Message and audio upstream (C5 - C9) -/

/-- C5: for a context, non-null data and a non-empty path, `MessageWrite` outside the
connected state returns `USP_WRONG_STATE` and makes no transport call; in the connected
state it makes exactly one `TransportMessageWrite` call and returns `USP_SUCCESS` if that
returns 0, `USP_TRANSPORT_ERROR_GENERIC` otherwise; so a transport call implies the
connected state. A null or an empty path returns `USP_INVALID_ARGUMENT` with no transport
call. -/
theorem MessageWrite_gated_by_state (env : Env) (ctx : UspContext) (path : String)
    (data : Bytes) (size : Nat) (hP : path ≠ "") :
    (ctx.state ≠ .USP_STATE_CONNECTED →
      MessageWrite env (some ctx) (some path) (some data) size = (.USP_WRONG_STATE, [])) ∧
    (ctx.state = .USP_STATE_CONNECTED →
      MessageWrite env (some ctx) (some path) (some data) size =
        (if env.TransportMessageWrite ctx.transport path data size = 0 then .USP_SUCCESS
          else .USP_TRANSPORT_ERROR_GENERIC,
         [.TransportMessageWrite ctx.transport path data size])) ∧
    ((MessageWrite env (some ctx) (some path) (some data) size).2 ≠ [] →
      ctx.state = .USP_STATE_CONNECTED) ∧
    MessageWrite env (some ctx) none (some data) size = (.USP_INVALID_ARGUMENT, []) ∧
    MessageWrite env (some ctx) (some "") (some data) size = (.USP_INVALID_ARGUMENT, []) := by
  have hl : path.length ≠ 0 := length_ne_zero_of_ne_empty path hP
  refine ⟨?_, ?_, ?_, rfl, rfl⟩
  · intro hs
    simp [MessageWrite, hl, hs, wrongStateResult]
  · intro hs
    simp [MessageWrite, hl, hs]
  · intro ht
    by_contra hs
    simp [MessageWrite, hl, hs] at ht

/-- Witness of `MessageWrite_gated_by_state`: an idle context is refused, a connected one
reaches the transport. -/
theorem MessageWrite_gated_by_state_witness :
    "speech.context" ≠ "" ∧
    MessageWrite nominalEnv (some sampleContext) (some "speech.context") (some [1, 2, 3]) 3 =
      (.USP_WRONG_STATE, []) ∧
    MessageWrite nominalEnv (some connectedContext) (some "speech.context") (some [1, 2, 3]) 3 =
      (.USP_SUCCESS, [.TransportMessageWrite (some 1) "speech.context" [1, 2, 3] 3]) :=
  ⟨by decide,
    (MessageWrite_gated_by_state nominalEnv sampleContext "speech.context" [1, 2, 3] 3
      (by decide)).1 (by decide),
    (MessageWrite_gated_by_state nominalEnv connectedContext "speech.context" [1, 2, 3] 3
      (by decide)).2.1 rfl⟩

/-- C6: for every context and non-null data, `AudioStreamWrite` with size 0 returns
`USP_INVALID_ARGUMENT`, makes no call at all (no `TransportStreamPrepare`, no
`TransportStreamWrite`, no metric) and leaves the context, `audioOffset` included, and the
`bytesWritten` cell as they were. -/
theorem AudioStreamWrite_size_zero (env : Env) (ctx : UspContext) (data : Bytes)
    (bytesWritten : Option Nat) :
    (AudioStreamWrite env (some ctx) (some data) 0 bytesWritten).ret
      = .enumerator .USP_INVALID_ARGUMENT ∧
    (AudioStreamWrite env (some ctx) (some data) 0 bytesWritten).trace = [] ∧
    (AudioStreamWrite env (some ctx) (some data) 0 bytesWritten).ctx = some ctx ∧
    (AudioStreamWrite env (some ctx) (some data) 0 bytesWritten).bytesWritten = bytesWritten :=
  ⟨rfl, rfl, rfl, rfl⟩

/-- C7 as stated fails: when `TransportStreamWrite` fails the call returns the error
`USP_TRANSPORT_ERROR_GENERIC` and `audioOffset` has still been advanced by the size, in the
middle of a turn (48 to 51) and on the first write of a turn (0 to 3). -/
theorem AudioStreamWrite_offset_advances_on_write_error :
    midTurnContext.audioOffset = 48 ∧
    (AudioStreamWrite streamWriteFailsEnv (some midTurnContext) (some [1, 2, 3]) 3 none).ret
      = .enumerator .USP_TRANSPORT_ERROR_GENERIC ∧
    (AudioStreamWrite streamWriteFailsEnv (some midTurnContext) (some [1, 2, 3]) 3 none).ctx.map
      (fun c => c.audioOffset) = some 51 ∧
    connectedContext.audioOffset = 0 ∧
    (AudioStreamWrite streamWriteFailsEnv (some connectedContext) (some [1, 2, 3]) 3 none).ret
      = .enumerator .USP_TRANSPORT_ERROR_GENERIC ∧
    (AudioStreamWrite streamWriteFailsEnv (some connectedContext) (some [1, 2, 3]) 3 none).ctx.map
      (fun c => c.audioOffset) = some 3 := by
  decide

/-- C7 as amended: for a call with size `n > 0`, if `TransportStreamPrepare` is called
(`audioOffset` is 0) and fails, the call returns that integer and the context is unchanged;
in every other case `TransportStreamWrite` is called and `audioOffset` becomes its previous
value plus `n`, reduced modulo the width of the field, whether the write succeeded (the
call returns `USP_SUCCESS`) or failed (`USP_TRANSPORT_ERROR_GENERIC`). In particular a call
that returns `USP_SUCCESS` has advanced `audioOffset` by `n`. -/
theorem AudioStreamWrite_offset (env : Env) (ctx : UspContext) (data : Bytes) (n : Nat)
    (bytesWritten : Option Nat) (hn : 0 < n) :
    ((ctx.audioOffset = 0 ∧ env.TransportStreamPrepare ctx.transport "/audio" ≠ 0) →
      (AudioStreamWrite env (some ctx) (some data) n bytesWritten).ret
        = .rawInt (env.TransportStreamPrepare ctx.transport "/audio") ∧
      (AudioStreamWrite env (some ctx) (some data) n bytesWritten).ctx = some ctx) ∧
    (¬ (ctx.audioOffset = 0 ∧ env.TransportStreamPrepare ctx.transport "/audio" ≠ 0) →
      (AudioStreamWrite env (some ctx) (some data) n bytesWritten).ret
        = .enumerator (if env.TransportStreamWrite ctx.transport data n = 0 then .USP_SUCCESS
            else .USP_TRANSPORT_ERROR_GENERIC) ∧
      (AudioStreamWrite env (some ctx) (some data) n bytesWritten).ctx
        = some { ctx with audioOffset := (ctx.audioOffset + n) % 2 ^ env.offsetBits }) ∧
    ((AudioStreamWrite env (some ctx) (some data) n bytesWritten).ret
        = .enumerator .USP_SUCCESS →
      (AudioStreamWrite env (some ctx) (some data) n bytesWritten).ctx
        = some { ctx with audioOffset := (ctx.audioOffset + n) % 2 ^ env.offsetBits }) := by
  have hn0 : n ≠ 0 := Nat.pos_iff_ne_zero.mp hn
  by_cases h0 : ctx.audioOffset = 0
  · by_cases hp : env.TransportStreamPrepare ctx.transport "/audio" = 0
    · simp [AudioStreamWrite, audioStreamWriteTail, hn0, h0, hp]
    · simp [AudioStreamWrite, audioStreamWriteTail, hn0, h0, hp]
  · simp [AudioStreamWrite, audioStreamWriteTail, hn0, h0]

/-- Witness of `AudioStreamWrite_offset`: a failed stream write in the middle of a turn. -/
theorem AudioStreamWrite_offset_witness :
    0 < 3 ∧
    (AudioStreamWrite streamWriteFailsEnv (some midTurnContext) (some [1, 2, 3]) 3 none).ctx
      = some { midTurnContext with audioOffset := (48 + 3) % 2 ^ 64 } :=
  ⟨by decide,
    ((AudioStreamWrite_offset streamWriteFailsEnv midTurnContext [1, 2, 3] 3 none
      (by decide)).2.1 (by decide)).2⟩

/-- C8: `AudioStreamFlush` with `audioOffset` 0 returns `USP_SUCCESS` with no call and the
context unchanged; otherwise it makes exactly the calls `TransportStreamFlush`,
`metrics_audiostream_flush`, `metrics_audio_end`, in this order, and leaves `audioOffset`
0 with the rest of the context unchanged, whatever `TransportStreamFlush` returned. So
`TransportStreamFlush` is called if and only if `audioOffset` is non-zero on entry, and
a second flush directly after a flush, under any collaborators, returns `USP_SUCCESS`,
makes no call and leaves the context as the first flush left it. -/
theorem AudioStreamFlush_spec (env env2 : Env) (ctx : UspContext) :
    (ctx.audioOffset = 0 →
      (AudioStreamFlush env (some ctx)).ret = .USP_SUCCESS ∧
      (AudioStreamFlush env (some ctx)).trace = [] ∧
      (AudioStreamFlush env (some ctx)).ctx = some ctx) ∧
    (ctx.audioOffset ≠ 0 →
      (AudioStreamFlush env (some ctx)).ret =
        (if env.TransportStreamFlush ctx.transport = 0 then .USP_SUCCESS
          else .USP_TRANSPORT_ERROR_GENERIC) ∧
      (AudioStreamFlush env (some ctx)).trace =
        [.TransportStreamFlush ctx.transport, .metrics_audiostream_flush,
         .metrics_audio_end ctx.telemetry] ∧
      (AudioStreamFlush env (some ctx)).ctx = some { ctx with audioOffset := 0 }) ∧
    ((∃ t, Event.TransportStreamFlush t ∈ (AudioStreamFlush env (some ctx)).trace) ↔
      ctx.audioOffset ≠ 0) ∧
    (AudioStreamFlush env2 (AudioStreamFlush env (some ctx)).ctx).ret = .USP_SUCCESS ∧
    (AudioStreamFlush env2 (AudioStreamFlush env (some ctx)).ctx).trace = [] ∧
    (AudioStreamFlush env2 (AudioStreamFlush env (some ctx)).ctx).ctx
      = (AudioStreamFlush env (some ctx)).ctx := by
  by_cases h0 : ctx.audioOffset = 0
  · simp [AudioStreamFlush, h0]
  · simp [AudioStreamFlush, h0]

/-- Witness of `AudioStreamFlush_spec`: a flush in the middle of a turn. -/
theorem AudioStreamFlush_spec_witness :
    midTurnContext.audioOffset ≠ 0 ∧
    (AudioStreamFlush nominalEnv (some midTurnContext)).trace =
      [.TransportStreamFlush (some 1), .metrics_audiostream_flush, .metrics_audio_end 7] ∧
    (AudioStreamFlush nominalEnv (some midTurnContext)).ctx
      = some { midTurnContext with audioOffset := 0 } ∧
    (AudioStreamFlush nominalEnv (some connectedContext)).trace = [] :=
  ⟨by decide,
    ((AudioStreamFlush_spec nominalEnv nominalEnv midTurnContext).2.1 (by decide)).2.1,
    ((AudioStreamFlush_spec nominalEnv nominalEnv midTurnContext).2.1 (by decide)).2.2,
    ((AudioStreamFlush_spec nominalEnv nominalEnv connectedContext).1 rfl).2.1⟩

/-- However the thirteen codes are numbered, some non-zero integer is not the number of
any of them; when `TransportStreamPrepare` fails with it, `AudioStreamWrite` returns that
integer. -/
theorem AudioStreamWrite_prepare_failure_outside_any_numbering (code : UspResult → Int) :
    ∃ r : Int, r ≠ 0 ∧ (∀ u, code u ≠ r) ∧
      ∀ (env : Env) (ctx : UspContext) (data : Bytes) (n : Nat) (bytesWritten : Option Nat),
        0 < n → ctx.audioOffset = 0 → env.TransportStreamPrepare ctx.transport "/audio" = r →
        (AudioStreamWrite env (some ctx) (some data) n bytesWritten).ret = .rawInt r := by
  have hcard : (Finset.univ.image code).card < (Finset.Icc (1 : Int) 14).card := by
    have h1 : (Finset.univ.image code).card ≤ (Finset.univ : Finset UspResult).card :=
      Finset.card_image_le
    have h2 : (Finset.univ : Finset UspResult).card = 13 := rfl
    have h3 : (Finset.Icc (1 : Int) 14).card = 14 := by simp
    omega
  have hex : ∃ r, r ∈ Finset.Icc (1 : Int) 14 ∧ r ∉ Finset.univ.image code := by
    by_contra hall
    have hsub : Finset.Icc (1 : Int) 14 ⊆ Finset.univ.image code := by
      intro x hx
      by_contra hx2
      exact hall ⟨x, hx, hx2⟩
    exact absurd (Finset.card_le_card hsub) (not_le.mpr hcard)
  obtain ⟨r, hr, hnot⟩ := hex
  refine ⟨r, ?_, ?_, ?_⟩
  · have := (Finset.mem_Icc.mp hr).1
    omega
  · intro u hu
    exact hnot (Finset.mem_image.mpr ⟨u, Finset.mem_univ u, hu⟩)
  · intro env ctx data n bw hn h0 hp
    have hn0 : n ≠ 0 := Nat.pos_iff_ne_zero.mp hn
    have hr0 : r ≠ 0 := by
      have := (Finset.mem_Icc.mp hr).1
      omega
    simp [AudioStreamWrite, hn0, h0, hp, hr0]

/-- C9 (code as it is): when `TransportStreamPrepare` fails with -1 on the first write of a
turn, `AudioStreamWrite` returns that integer as it is, not one of the result codes. -/
theorem AudioStreamWrite_returns_prepare_int :
    connectedContext.audioOffset = 0 ∧
    (AudioStreamWrite streamPrepareFailsEnv (some connectedContext) (some [1, 2, 3]) 3 none).ret
      = .rawInt (-1) ∧
    ∀ r : UspResult,
      (AudioStreamWrite streamPrepareFailsEnv (some connectedContext) (some [1, 2, 3]) 3 none).ret
        ≠ .enumerator r := by
  decide

/-! ## Inbound dispatch (C10) -/

/-- The dispatch table of the source and the table of the specification send every path
to the same handler. -/
theorem systemTable_lookup (path : String) :
    (g_SystemMessageHandlers.find? (fun e => path == e.1)).map (fun e => e.2)
      = specSystemTable.lookup path := by
  by_cases h1 : path = "turn.start"
  · subst h1; decide
  by_cases h2 : path = "turn.end"
  · subst h2; decide
  by_cases h3 : path = "speech.startDetected"
  · subst h3; decide
  by_cases h4 : path = "speech.endDetected"
  · subst h4; decide
  by_cases h5 : path = "speech.hypothesis"
  · subst h5; decide
  by_cases h6 : path = "speech.phrase"
  · subst h6; decide
  by_cases h7 : path = "speech.fragment"
  · subst h7; decide
  have b1 : (path == "turn.start") = false := beq_eq_false_iff_ne.mpr h1
  have b2 : (path == "turn.end") = false := beq_eq_false_iff_ne.mpr h2
  have b3 : (path == "speech.startDetected") = false := beq_eq_false_iff_ne.mpr h3
  have b4 : (path == "speech.endDetected") = false := beq_eq_false_iff_ne.mpr h4
  have b5 : (path == "speech.hypothesis") = false := beq_eq_false_iff_ne.mpr h5
  have b6 : (path == "speech.phrase") = false := beq_eq_false_iff_ne.mpr h6
  have b7 : (path == "speech.fragment") = false := beq_eq_false_iff_ne.mpr h7
  simp [g_SystemMessageHandlers, specSystemTable, List.find?, List.lookup,
    g_messagePathTurnStart, g_messagePathTurnEnd, g_messagePathSpeechStartDetected,
    g_messagePathSpeechEndDetected, g_messagePathSpeechHypothesis, g_messagePathSpeechPhrase,
    g_messagePathSpeechFragment, b1, b2, b3, b4, b5, b6, b7]

/-- No system handler reads the user registry. -/
theorem SystemMessageHandler_call_registry (h : SystemMessageHandler) (env : Env)
    (ctx : UspContext) (registry : List UserPathHandler) (path : String)
    (mime : Option String) (buffer : Bytes) (size : Nat) :
    h.call env { ctx with userPathHandlerList := registry } path mime buffer size
      = h.call env ctx path mime buffer size := by
  cases h <;> rfl

/-- No system handler invokes a message handler itself. -/
theorem SystemMessageHandler_call_no_handler (h : SystemMessageHandler) (env : Env)
    (ctx : UspContext) (path : String) (mime : Option String) (buffer : Bytes) (size : Nat) :
    (h.call env ctx path mime buffer size).2.filter Event.isHandlerCall = [] := by
  cases h
  · simp only [SystemMessageHandler.call, ContentPathHandler]
    split_ifs <;> rfl
  · simp only [SystemMessageHandler.call, SpeechStartHandler]
    split
    · rfl
    · split <;> rfl
  · simp only [SystemMessageHandler.call, SpeechEndHandler]
    split
    · rfl
    · split <;> rfl
  · simp only [SystemMessageHandler.call, TurnEndHandler]
    split
    · rfl
    · split <;> rfl

/-- No system handler records the unhandled-response metric. -/
theorem SystemMessageHandler_call_no_metric (h : SystemMessageHandler) (env : Env)
    (ctx : UspContext) (path : String) (mime : Option String) (buffer : Bytes) (size : Nat) :
    (h.call env ctx path mime buffer size).2.count .metrics_transport_unhandledresponse
      = 0 := by
  cases h
  · simp only [SystemMessageHandler.call, ContentPathHandler]
    split_ifs <;> rfl
  · simp only [SystemMessageHandler.call, SpeechStartHandler]
    split
    · rfl
    · split <;> rfl
  · simp only [SystemMessageHandler.call, SpeechEndHandler]
    split
    · rfl
    · split <;> rfl
  · simp only [SystemMessageHandler.call, TurnEndHandler]
    split
    · rfl
    · split <;> rfl

/-- The function under a well-formed frame: with a `Path` header and, for a non-empty body,
a `Content-Type` header, `TransportRecvResponseHandler` reaches its dispatch part. -/
theorem TransportRecvResponseHandler_dispatch (env : Env) (ctx : UspContext)
    (headers : HttpHeaders) (buffer : Bytes) (size : Nat) (path : String)
    (hPath : HTTPHeaders_FindHeaderValue headers KEYWORD_PATH = some path)
    (hType : size ≠ 0 → HTTPHeaders_FindHeaderValue headers g_keywordContentType ≠ none) :
    TransportRecvResponseHandler env (some headers) buffer size 0 (some ctx) =
      match g_SystemMessageHandlers.find? (fun e => path == e.1) with
      | some e =>
        (some ctx, Event.systemHandler e.2 path (recvContentType headers size) buffer size ::
          (e.2.call env ctx path (recvContentType headers size) buffer size).2)
      | none =>
        match ctx.userPathHandlerList.find? (fun item => userPathHandlerCompare item path) with
        | none =>
          (some ctx, [.PROTOCOL_VIOLATION "unhandled response",
                      .metrics_transport_unhandledresponse])
        | some pathHandler =>
          match pathHandler.handler with
          | some fn =>
            (some ctx, [.userMessage fn path (recvContentType headers size) buffer size
                          ctx.callbackContext])
          | none =>
            (some ctx, [.assertFailed, .PROTOCOL_VIOLATION "unhandled response",
                        .metrics_transport_unhandledresponse]) := by
  have hct : ¬ (size ≠ 0 ∧ recvContentType headers size = none) := by
    rintro ⟨h0, hn⟩
    simp only [recvContentType, h0, ne_eq, not_false_eq_true, if_true] at hn
    exact hType h0 hn
  unfold TransportRecvResponseHandler
  simp only [hPath, ne_eq, not_true_eq_false, if_false]
  rw [if_neg (by simpa using hct)]
  cases g_SystemMessageHandlers.find? (fun e => path == e.1) with
  | some e => rfl
  | none =>
    simp only
    cases ctx.userPathHandlerList.find? (fun item => userPathHandlerCompare item path) with
    | none => rfl
    | some pathHandler =>
      cases hh : pathHandler.handler with
      | none => simp [hh]
      | some fn => simp [hh]

/-- C10: an inbound frame with error code 0, a `Path` header and, when its body is
non-empty, a `Content-Type` header is routed as the reference routing of the specification
says, on a registry whose entries all carry a handler. For a system path the handler of
the table row is called once, followed only by what that handler itself does, and the
outcome does not depend on the user registry; otherwise the handler of the first registry
entry with an equal path is called once, with the frame and the user callback context, and
no metric is recorded; otherwise no handler is called and the unhandled-response metric is
recorded once. The context is unchanged throughout. -/
theorem TransportRecvResponseHandler_routes (env : Env) (ctx : UspContext)
    (headers : HttpHeaders) (buffer : Bytes) (size : Nat) (path : String)
    (hPath : HTTPHeaders_FindHeaderValue headers KEYWORD_PATH = some path)
    (hType : size ≠ 0 → HTTPHeaders_FindHeaderValue headers g_keywordContentType ≠ none)
    (hReg : ∀ entry ∈ ctx.userPathHandlerList, entry.handler ≠ none) :
    (TransportRecvResponseHandler env (some headers) buffer size 0 (some ctx)).1 = some ctx ∧
    (∀ h, specRoute path ctx.userPathHandlerList = .system h →
      (TransportRecvResponseHandler env (some headers) buffer size 0 (some ctx)).2 =
        .systemHandler h path (recvContentType headers size) buffer size ::
          (h.call env ctx path (recvContentType headers size) buffer size).2 ∧
      (TransportRecvResponseHandler env (some headers) buffer size 0
          (some ctx)).2.filter Event.isHandlerCall =
        [.systemHandler h path (recvContentType headers size) buffer size] ∧
      ∀ registry,
        (TransportRecvResponseHandler env (some headers) buffer size 0
          (some { ctx with userPathHandlerList := registry })).2 =
        (TransportRecvResponseHandler env (some headers) buffer size 0 (some ctx)).2) ∧
    (∀ entry, specRoute path ctx.userPathHandlerList = .user entry →
      ∃ fn, entry.handler = some fn ∧
        (TransportRecvResponseHandler env (some headers) buffer size 0 (some ctx)).2 =
          [.userMessage fn path (recvContentType headers size) buffer size
            ctx.callbackContext] ∧
        (TransportRecvResponseHandler env (some headers) buffer size 0
          (some ctx)).2.count .metrics_transport_unhandledresponse = 0) ∧
    (specRoute path ctx.userPathHandlerList = .unhandled →
      (TransportRecvResponseHandler env (some headers) buffer size 0 (some ctx)).2 =
        [.PROTOCOL_VIOLATION "unhandled response", .metrics_transport_unhandledresponse] ∧
      (TransportRecvResponseHandler env (some headers) buffer size 0
          (some ctx)).2.filter Event.isHandlerCall = [] ∧
      (TransportRecvResponseHandler env (some headers) buffer size 0
          (some ctx)).2.count .metrics_transport_unhandledresponse = 1) := by
  have hcmp : (fun item : UserPathHandler => userPathHandlerCompare item path)
      = (fun entry : UserPathHandler => decide (entry.path = path)) := by
    funext item
    by_cases hi : item.path = path <;> simp [userPathHandlerCompare, hi]
  have hD := TransportRecvResponseHandler_dispatch env ctx headers buffer size path hPath hType
  have hD2 : ∀ registry, _ :=
    fun registry => TransportRecvResponseHandler_dispatch env
      { ctx with userPathHandlerList := registry } headers buffer size path hPath hType
  have hT := systemTable_lookup path
  cases hs : g_SystemMessageHandlers.find? (fun e => path == e.1) with
  | some e =>
    rw [hs] at hD hT
    have hR : specRoute path ctx.userPathHandlerList = .system e.2 := by
      simp [specRoute, ← hT]
    rw [hD, hR]
    refine ⟨rfl, ?_, ?_, ?_⟩
    · intro h hh
      cases hh
      refine ⟨rfl, ?_, ?_⟩
      · simp only [List.filter_cons, Event.isHandlerCall, if_true,
          SystemMessageHandler_call_no_handler]
      · intro registry
        rw [hD2 registry, hs]
        simp only [SystemMessageHandler_call_registry]
    · intro entry hh
      cases hh
    · intro hh
      cases hh
  | none =>
    rw [hs] at hD hT
    simp only at hD
    cases hu : ctx.userPathHandlerList.find?
        (fun item => userPathHandlerCompare item path) with
    | none =>
      rw [hu] at hD
      have hR : specRoute path ctx.userPathHandlerList = .unhandled := by
        rw [hcmp] at hu
        simp [specRoute, ← hT, hu]
      rw [hD, hR]
      refine ⟨rfl, ?_, ?_, ?_⟩
      · intro h hh
        cases hh
      · intro entry hh
        cases hh
      · intro _
        exact ⟨rfl, rfl, rfl⟩
    | some pathHandler =>
      rw [hu] at hD
      have hmem : pathHandler ∈ ctx.userPathHandlerList := List.mem_of_find?_eq_some hu
      have hR : specRoute path ctx.userPathHandlerList = .user pathHandler := by
        rw [hcmp] at hu
        simp [specRoute, ← hT, hu]
      cases hh : pathHandler.handler with
      | none => exact absurd hh (hReg pathHandler hmem)
      | some fn =>
        simp only [hh] at hD
        rw [hD, hR]
        refine ⟨rfl, ?_, ?_, ?_⟩
        · intro h hh
          cases hh
        · intro entry he
          cases he
          exact ⟨fn, hh, rfl, rfl⟩
        · intro he
          cases he

/-- Witness of `TransportRecvResponseHandler_routes`: on a registry with two handlers under
`custom.event` and one under `turn.end`, a `custom.event` frame goes to the first of the
two, and a `turn.end` frame goes to `TurnEndHandler`, not to the registered handler. -/
theorem TransportRecvResponseHandler_routes_witness :
    HTTPHeaders_FindHeaderValue
      [("Path", "custom.event"), ("Content-Type", "application/json")] KEYWORD_PATH
      = some "custom.event" ∧
    (∀ entry ∈ registryContext.userPathHandlerList, entry.handler ≠ none) ∧
    (TransportRecvResponseHandler nominalEnv
      (some [("Path", "custom.event"), ("Content-Type", "application/json")])
      [123, 125] 2 0 (some registryContext)).2 =
      [.userMessage 201 "custom.event" (some "application/json") [123, 125] 2 55] ∧
    (TransportRecvResponseHandler nominalEnv (some [("Path", "turn.end")])
      [] 0 0 (some registryContext)).2 =
      [.systemHandler .TurnEndHandler "turn.end" none [] 0, .telemetry_flush 7,
       .onTurnEnd 107 55, .TransportCreateRequestId (some 1)] := by
  refine ⟨by decide, by decide, ?_, ?_⟩
  · obtain ⟨fn, hfn, htrace, -⟩ :=
      (TransportRecvResponseHandler_routes nominalEnv registryContext
        [("Path", "custom.event"), ("Content-Type", "application/json")] [123, 125] 2
        "custom.event" (by decide) (by decide) (by decide)).2.2.1
        ⟨"custom.event", some 201⟩ (by decide)
    cases hfn
    exact htrace
  · exact ((TransportRecvResponseHandler_routes nominalEnv registryContext
        [("Path", "turn.end")] [] 0 "turn.end" (by decide) (by decide) (by decide)).2.1
        .TurnEndHandler (by decide)).1

/-! ## Dropped frames (C11, C20) -/

/-- C11: a frame delivered with a non-zero error code, with null headers, without a `Path`
header, or with a non-empty body and no `Content-Type` header is dropped: the context
(its transport included) is unchanged, and the only call made, in the last two cases, is
one protocol-violation report, so no system handler and no user handler is invoked. -/
theorem TransportRecvResponseHandler_drops (env : Env) (ctx : UspContext)
    (responseHeader : Option HttpHeaders) (headers : HttpHeaders) (buffer : Bytes)
    (size errorCode : Nat) :
    (errorCode ≠ 0 →
      TransportRecvResponseHandler env responseHeader buffer size errorCode (some ctx)
        = (some ctx, [])) ∧
    TransportRecvResponseHandler env none buffer size errorCode (some ctx) = (some ctx, []) ∧
    (HTTPHeaders_FindHeaderValue headers KEYWORD_PATH = none →
      TransportRecvResponseHandler env (some headers) buffer size 0 (some ctx)
        = (some ctx, [.PROTOCOL_VIOLATION "response missing Path header"]) ∧
      (TransportRecvResponseHandler env (some headers) buffer size 0
        (some ctx)).2.filter Event.isHandlerCall = []) ∧
    (size ≠ 0 → HTTPHeaders_FindHeaderValue headers g_keywordContentType = none →
      TransportRecvResponseHandler env (some headers) buffer size 0 (some ctx)
        = (some ctx,
            [.PROTOCOL_VIOLATION
              (if HTTPHeaders_FindHeaderValue headers KEYWORD_PATH = none then
                "response missing Path header"
               else "response contains body with no content-type")]) ∧
      (TransportRecvResponseHandler env (some headers) buffer size 0
        (some ctx)).2.filter Event.isHandlerCall = []) := by
  refine ⟨?_, ?_, ?_, ?_⟩
  · intro he
    simp [TransportRecvResponseHandler, he]
  · unfold TransportRecvResponseHandler
    split_ifs <;> rfl
  · intro hp
    have h : TransportRecvResponseHandler env (some headers) buffer size 0 (some ctx)
        = (some ctx, [.PROTOCOL_VIOLATION "response missing Path header"]) := by
      simp [TransportRecvResponseHandler, hp]
    rw [h]
    exact ⟨rfl, rfl⟩
  · intro hs hc
    have hct : recvContentType headers size = none := by
      simp [recvContentType, hs, hc]
    cases hp : HTTPHeaders_FindHeaderValue headers KEYWORD_PATH with
    | none =>
      have h : TransportRecvResponseHandler env (some headers) buffer size 0 (some ctx)
          = (some ctx, [.PROTOCOL_VIOLATION "response missing Path header"]) := by
        simp [TransportRecvResponseHandler, hp]
      rw [h]
      exact ⟨rfl, rfl⟩
    | some path =>
      have h : TransportRecvResponseHandler env (some headers) buffer size 0 (some ctx)
          = (some ctx,
              [.PROTOCOL_VIOLATION "response contains body with no content-type"]) := by
        simp [TransportRecvResponseHandler, hp, hct, hs]
      rw [h]
      exact ⟨rfl, rfl⟩

/-- Witness of `TransportRecvResponseHandler_drops`: a `speech.phrase` frame with a body of
three bytes and no `Content-Type` header. -/
theorem TransportRecvResponseHandler_drops_witness :
    (3 : Nat) ≠ 0 ∧
    HTTPHeaders_FindHeaderValue [("Path", "speech.phrase")] g_keywordContentType = none ∧
    (TransportRecvResponseHandler nominalEnv (some [("Path", "speech.phrase")]) [1, 2, 3] 3 0
      (some registryContext)).2.filter Event.isHandlerCall = [] :=
  ⟨by decide, by decide,
    ((TransportRecvResponseHandler_drops nominalEnv registryContext none
      [("Path", "speech.phrase")] [1, 2, 3] 3 0).2.2.2 (by decide) (by decide)).2⟩

/-- C20 as stated fails: a `speech.phrase` frame with a body of three bytes and no
`Content-Type` header is dropped with the protocol-violation report as only call; the
unhandled-response metric is not recorded. -/
theorem TransportRecvResponseHandler_no_content_type_no_metric :
    HTTPHeaders_FindHeaderValue [("Path", "speech.phrase")] KEYWORD_PATH
      = some "speech.phrase" ∧
    HTTPHeaders_FindHeaderValue [("Path", "speech.phrase")] g_keywordContentType = none ∧
    (TransportRecvResponseHandler nominalEnv (some [("Path", "speech.phrase")]) [1, 2, 3] 3 0
      (some registryContext)).2
      = [.PROTOCOL_VIOLATION "response contains body with no content-type"] ∧
    (TransportRecvResponseHandler nominalEnv (some [("Path", "speech.phrase")]) [1, 2, 3] 3 0
      (some registryContext)).2.count .metrics_transport_unhandledresponse = 0 := by
  decide

/-- C20 as amended: an inbound frame with error code 0, a `Path` header, a non-empty body
and no `Content-Type` header is dropped: the context is unchanged, the only call made is
the protocol-violation report, no system or user handler is called, and the
unhandled-response metric is not recorded. -/
theorem TransportRecvResponseHandler_no_content_type (env : Env) (ctx : UspContext)
    (headers : HttpHeaders) (buffer : Bytes) (size : Nat) (path : String)
    (hPath : HTTPHeaders_FindHeaderValue headers KEYWORD_PATH = some path)
    (hSize : size ≠ 0)
    (hType : HTTPHeaders_FindHeaderValue headers g_keywordContentType = none) :
    TransportRecvResponseHandler env (some headers) buffer size 0 (some ctx)
      = (some ctx, [.PROTOCOL_VIOLATION "response contains body with no content-type"]) ∧
    (TransportRecvResponseHandler env (some headers) buffer size 0
      (some ctx)).2.filter Event.isHandlerCall = [] ∧
    (TransportRecvResponseHandler env (some headers) buffer size 0
      (some ctx)).2.count .metrics_transport_unhandledresponse = 0 := by
  have hct : recvContentType headers size = none := by
    simp [recvContentType, hSize, hType]
  have h : TransportRecvResponseHandler env (some headers) buffer size 0 (some ctx)
      = (some ctx, [.PROTOCOL_VIOLATION "response contains body with no content-type"]) := by
    simp [TransportRecvResponseHandler, hPath, hct, hSize]
  rw [h]
  exact ⟨rfl, rfl, rfl⟩

/-- Witness of `TransportRecvResponseHandler_no_content_type`. -/
theorem TransportRecvResponseHandler_no_content_type_witness :
    HTTPHeaders_FindHeaderValue [("Path", "speech.phrase")] KEYWORD_PATH
      = some "speech.phrase" ∧
    (3 : Nat) ≠ 0 ∧
    HTTPHeaders_FindHeaderValue [("Path", "speech.phrase")] g_keywordContentType = none ∧
    TransportRecvResponseHandler nominalEnv (some [("Path", "speech.phrase")]) [1, 2, 3] 3 0
      (some registryContext)
      = (some registryContext,
          [.PROTOCOL_VIOLATION "response contains body with no content-type"]) :=
  ⟨by decide, by decide, by decide,
    (TransportRecvResponseHandler_no_content_type nominalEnv registryContext
      [("Path", "speech.phrase")] [1, 2, 3] 3 "speech.phrase" (by decide) (by decide)
      (by decide)).1⟩

/-! ## Callback table and shutdown (C12, C13) -/

/-- C12: for a non-null context and a non-null table, `UspSetCallbacks` returns
`USP_INVALID_ARGUMENT` if and only if the version of the table differs from
`USP_CALLBACK_VERSION`, which is 1, or its size differs from `sizeof(UspCallbacks)`; it
then leaves the context as it was. Otherwise it returns `USP_SUCCESS` and the context
holds the table and the callback context passed in, all other fields unchanged. -/
theorem UspSetCallbacks_validates (env : Env) (ctx : UspContext) (callbacks : UspCallbacks)
    (callbackContext : Nat) :
    USP_CALLBACK_VERSION = 1 ∧
    ((UspSetCallbacks env (some ctx) (some callbacks) callbackContext).1
        = .USP_INVALID_ARGUMENT ↔
      (callbacks.version ≠ USP_CALLBACK_VERSION ∨ callbacks.size ≠ env.sizeofUspCallbacks)) ∧
    ((UspSetCallbacks env (some ctx) (some callbacks) callbackContext).1
        = .USP_INVALID_ARGUMENT →
      (UspSetCallbacks env (some ctx) (some callbacks) callbackContext).2 = some ctx) ∧
    ((UspSetCallbacks env (some ctx) (some callbacks) callbackContext).1
        ≠ .USP_INVALID_ARGUMENT →
      (UspSetCallbacks env (some ctx) (some callbacks) callbackContext).1 = .USP_SUCCESS ∧
      (UspSetCallbacks env (some ctx) (some callbacks) callbackContext).2 =
        some { ctx with callbacks := some callbacks, callbackContext := callbackContext }) := by
  refine ⟨rfl, ?_, ?_, ?_⟩ <;>
    by_cases h : callbacks.version ≠ USP_CALLBACK_VERSION ∨
        callbacks.size ≠ env.sizeofUspCallbacks <;>
    simp [UspSetCallbacks, h]

/-- Witness of `UspSetCallbacks_validates`: a table of version 2 is rejected and leaves
the context alone, a table of version 1 and the expected size is installed. -/
theorem UspSetCallbacks_validates_witness :
    (UspSetCallbacks nominalEnv (some sampleContext) (some staleCallbacks) 55).1
      = .USP_INVALID_ARGUMENT ∧
    (UspSetCallbacks nominalEnv (some sampleContext) (some staleCallbacks) 55).2
      = some sampleContext ∧
    (UspSetCallbacks nominalEnv (some sampleContext) (some sampleCallbacks) 55).2
      = some { sampleContext with callbacks := some sampleCallbacks, callbackContext := 55 } :=
  ⟨by decide,
    (UspSetCallbacks_validates nominalEnv sampleContext staleCallbacks 55).2.2.1 (by decide),
    ((UspSetCallbacks_validates nominalEnv sampleContext sampleCallbacks 55).2.2.2
      (by decide)).2⟩

/-- C13: for every non-null context `TransportShutdown` returns `USP_SUCCESS` and leaves
the transport of the context null, with everything else unchanged. A second run directly
after it returns the same result, leaves the same context and makes no call, so the two
runs together hold at most one `TransportRequestDestroy`. -/
theorem TransportShutdown_idempotent (ctx : UspContext) :
    (TransportShutdown (some ctx)).1 = .USP_SUCCESS ∧
    (TransportShutdown (some ctx)).2.1 = some { ctx with transport := none } ∧
    (TransportShutdown (TransportShutdown (some ctx)).2.1).1
      = (TransportShutdown (some ctx)).1 ∧
    (TransportShutdown (TransportShutdown (some ctx)).2.1).2.1
      = (TransportShutdown (some ctx)).2.1 ∧
    (TransportShutdown (TransportShutdown (some ctx)).2.1).2.2 = [] ∧
    ((TransportShutdown (some ctx)).2.2 ++
      (TransportShutdown (TransportShutdown (some ctx)).2.1).2.2).length ≤ 1 := by
  refine ⟨rfl, rfl, rfl, rfl, rfl, ?_⟩
  simp only [TransportShutdown]
  cases ctx.transport <;> simp

/-! ## One stream prepare for each turn (C19) -/

/-- An `AudioStreamWrite` that starts with a non-zero `audioOffset` does not call
`TransportStreamPrepare`. -/
theorem AudioStreamWrite_no_prepare (env : Env) (ctx : UspContext) (data : Option Bytes)
    (size : Nat) (bytesWritten : Option Nat) (h : ctx.audioOffset ≠ 0) :
    (AudioStreamWrite env (some ctx) data size bytesWritten).trace.filter
      Event.isStreamPrepare = [] := by
  unfold AudioStreamWrite
  cases data with
  | none => rfl
  | some d =>
    by_cases hs : size = 0
    · simp [hs]
    · simp [hs, h, audioStreamWriteTail, Event.isStreamPrepare]

/-- No `AudioStreamFlush` calls `TransportStreamPrepare`. -/
theorem AudioStreamFlush_no_prepare (env : Env) (ctx : Option UspContext) :
    (AudioStreamFlush env ctx).trace.filter Event.isStreamPrepare = [] := by
  cases ctx with
  | none => rfl
  | some c =>
    simp only [AudioStreamFlush]
    split_ifs <;> rfl

/-- A run of writes that starts with a non-zero `audioOffset` and whose sizes, added to
it, stay below the range of the field does not call `TransportStreamPrepare`. -/
theorem audioStreamWrites_no_prepare (env : Env) (writes : List (Bytes × Nat)) :
    ∀ ctx : UspContext, ctx.audioOffset ≠ 0 →
      ctx.audioOffset + (writes.map Prod.snd).sum < 2 ^ env.offsetBits →
      (audioStreamWrites env (some ctx) writes).2.2.filter Event.isStreamPrepare = [] := by
  induction writes with
  | nil => intro ctx _ _; rfl
  | cons w rest ih =>
    intro ctx h0 hfit
    obtain ⟨data, size⟩ := w
    simp only [List.map_cons, List.sum_cons] at hfit
    simp only [audioStreamWrites, List.filter_append, AudioStreamWrite_no_prepare env ctx _ _ _ h0,
      List.nil_append]
    by_cases hs : size = 0
    · have hc : (AudioStreamWrite env (some ctx) (some data) size none).ctx = some ctx := by
        simp [AudioStreamWrite, hs]
      rw [hc]
      exact ih ctx h0 (by omega)
    · have hc : (AudioStreamWrite env (some ctx) (some data) size none).ctx
          = some { ctx with audioOffset := ctx.audioOffset + size } := by
        have hm : (ctx.audioOffset + size) % 2 ^ env.offsetBits = ctx.audioOffset + size :=
          Nat.mod_eq_of_lt (by omega)
        simp [AudioStreamWrite, hs, h0, audioStreamWriteTail, hm]
      rw [hc]
      exact ih _ (by simp only; omega) (by simp only; omega)

/-- C19: take a run of `AudioStreamWrite` calls, each with a size above 0 and each
returning `USP_SUCCESS`, that starts with `audioOffset` 0 and is followed by
`AudioStreamFlush`, the sizes adding up to less than the range of the `audioOffset` field.
Its calls hold exactly one `TransportStreamPrepare`, with the argument `/audio`, and no
`TransportStreamWrite` precedes it. Moreover no `AudioStreamWrite` that starts with a
non-zero `audioOffset` calls `TransportStreamPrepare`. -/
theorem audioTurn_prepares_once (env : Env) (ctx : UspContext) (writes : List (Bytes × Nat))
    (h0 : ctx.audioOffset = 0) (hne : writes ≠ [])
    (hsize : ∀ w ∈ writes, 0 < w.2)
    (hok : ∀ r ∈ (audioStreamWrites env (some ctx) writes).1, r = .enumerator .USP_SUCCESS)
    (hfit : (writes.map Prod.snd).sum < 2 ^ env.offsetBits) :
    (audioTurn env ctx writes).filter Event.isStreamPrepare
      = [.TransportStreamPrepare ctx.transport "/audio"] ∧
    (∃ pre post,
      audioTurn env ctx writes
        = pre ++ Event.TransportStreamPrepare ctx.transport "/audio" :: post ∧
      pre.filter Event.isStreamWrite = []) ∧
    (∀ (env2 : Env) (ctx2 : UspContext) (data : Option Bytes) (size : Nat)
      (bytesWritten : Option Nat), ctx2.audioOffset ≠ 0 →
      (AudioStreamWrite env2 (some ctx2) data size bytesWritten).trace.filter
        Event.isStreamPrepare = []) := by
  have key : ∃ post,
      audioTurn env ctx writes
        = [.metrics_audiostream_data (writes.head hne).2, .metrics_audiostream_init,
           .metrics_audio_start ctx.telemetry] ++
          Event.TransportStreamPrepare ctx.transport "/audio" :: post ∧
      post.filter Event.isStreamPrepare = [] := by
    cases writes with
    | nil => exact absurd rfl hne
    | cons w rest =>
      obtain ⟨data, size⟩ := w
      have hs : size ≠ 0 := Nat.pos_iff_ne_zero.mp (hsize (data, size) (List.mem_cons_self _ _))
      simp only [List.map_cons, List.sum_cons] at hfit
      have hp : env.TransportStreamPrepare ctx.transport "/audio" = 0 := by
        by_contra hp
        have := hok (AudioStreamWrite env (some ctx) (some data) size none).ret
          (by simp [audioStreamWrites])
        simp [AudioStreamWrite, hs, h0, hp] at this
      have hm : size % 2 ^ env.offsetBits = size := Nat.mod_eq_of_lt (by omega)
      have hc : (AudioStreamWrite env (some ctx) (some data) size none).ctx
          = some { ctx with audioOffset := size } := by
        simp [AudioStreamWrite, hs, h0, hp, audioStreamWriteTail, hm]
      have ht : (AudioStreamWrite env (some ctx) (some data) size none).trace
          = [.metrics_audiostream_data size, .metrics_audiostream_init,
             .metrics_audio_start ctx.telemetry, .TransportStreamPrepare ctx.transport "/audio",
             .TransportStreamWrite ctx.transport data size] := by
        simp [AudioStreamWrite, hs, h0, hp, audioStreamWriteTail]
      have hrest := audioStreamWrites_no_prepare env rest { ctx with audioOffset := size }
        hs (by simp only; omega)
      refine ⟨Event.TransportStreamWrite ctx.transport data size ::
        ((audioStreamWrites env (some { ctx with audioOffset := size }) rest).2.2 ++
          (AudioStreamFlush env
            (audioStreamWrites env (some { ctx with audioOffset := size }) rest).2.1).trace),
        ?_, ?_⟩
      · simp only [audioTurn, audioStreamWrites, hc, ht, List.head_cons, List.cons_append,
          List.nil_append]
      · simp only [List.filter_cons, Event.isStreamPrepare, List.filter_append, hrest,
          AudioStreamFlush_no_prepare, List.append_nil]
        rfl
  obtain ⟨post, hpost, hfilter⟩ := key
  refine ⟨?_, ⟨_, post, hpost, rfl⟩,
    fun env2 ctx2 data size bw h => AudioStreamWrite_no_prepare env2 ctx2 data size bw h⟩
  rw [hpost]
  simp only [List.filter_append, List.filter_cons, Event.isStreamPrepare, hfilter]
  rfl

/-- Witness of `audioTurn_prepares_once`: three chunks and a flush on a connected
context. -/
theorem audioTurn_prepares_once_witness :
    connectedContext.audioOffset = 0 ∧
    audioTurn nominalEnv connectedContext [([1, 2], 2), ([3, 4], 2), ([5], 1)] =
      [.metrics_audiostream_data 2, .metrics_audiostream_init, .metrics_audio_start 7,
       .TransportStreamPrepare (some 1) "/audio", .TransportStreamWrite (some 1) [1, 2] 2,
       .metrics_audiostream_data 2, .TransportStreamWrite (some 1) [3, 4] 2,
       .metrics_audiostream_data 1, .TransportStreamWrite (some 1) [5] 1,
       .TransportStreamFlush (some 1), .metrics_audiostream_flush, .metrics_audio_end 7] ∧
    (audioTurn nominalEnv connectedContext [([1, 2], 2), ([3, 4], 2), ([5], 1)]).filter
      Event.isStreamPrepare = [.TransportStreamPrepare (some 1) "/audio"] :=
  ⟨rfl, by decide,
    (audioTurn_prepares_once nominalEnv connectedContext [([1, 2], 2), ([3, 4], 2), ([5], 1)]
      rfl (by decide) (by decide) (by decide) (by decide)).1⟩

/-! ## Inbound handlers (C21 - C23) -/

/-- What the three handlers do on the code when the callback is missing, for every code
of the absent macro: for each of `SpeechStartHandler`, `SpeechEndHandler` and
`TurnEndHandler`, when the callback table is installed and its slot for that path is null,
the handler calls no user callback and returns `USP_SUCCESS` (`TurnEndHandler` still flushes
the telemetry and allocates the request id); when no table was installed the handler calls
no user callback either and returns the code of `USP_RETURN_ERROR_IF_CALLBACKS_NULL`
(`TurnEndHandler` after the telemetry flush and without allocating a request id). -/
theorem handlers_missing_callback (env : Env) (ctx : UspContext) :
    (∀ callbacks, ctx.callbacks = some callbacks → callbacks.onSpeechStartDetected = none →
      SpeechStartHandler env ctx = (.USP_SUCCESS, [])) ∧
    (∀ callbacks, ctx.callbacks = some callbacks → callbacks.onSpeechEndDetected = none →
      SpeechEndHandler env ctx = (.USP_SUCCESS, [])) ∧
    (∀ callbacks, ctx.callbacks = some callbacks → callbacks.onTurnEnd = none →
      TurnEndHandler env ctx =
        (.USP_SUCCESS,
          [.telemetry_flush ctx.telemetry, .TransportCreateRequestId ctx.transport]) ∧
      (TurnEndHandler env ctx).2.filter Event.isUserCallback = []) ∧
    (ctx.callbacks = none →
      SpeechStartHandler env ctx = (env.callbacksNullResult, []) ∧
      SpeechEndHandler env ctx = (env.callbacksNullResult, []) ∧
      TurnEndHandler env ctx = (env.callbacksNullResult, [.telemetry_flush ctx.telemetry]) ∧
      (TurnEndHandler env ctx).2.filter Event.isUserCallback = []) := by
  refine ⟨?_, ?_, ?_, ?_⟩
  · intro callbacks hc hs
    simp [SpeechStartHandler, hc, hs]
  · intro callbacks hc hs
    simp [SpeechEndHandler, hc, hs]
  · intro callbacks hc hs
    have h : TurnEndHandler env ctx =
        (.USP_SUCCESS,
          [.telemetry_flush ctx.telemetry, .TransportCreateRequestId ctx.transport]) := by
      simp [TurnEndHandler, hc, hs]
    rw [h]
    exact ⟨rfl, rfl⟩
  · intro hc
    have h : TurnEndHandler env ctx
        = (env.callbacksNullResult, [.telemetry_flush ctx.telemetry]) := by
      simp [TurnEndHandler, hc]
    rw [h]
    refine ⟨?_, ?_, rfl, rfl⟩
    · simp [SpeechStartHandler, hc]
    · simp [SpeechEndHandler, hc]

/-- An instance of `handlers_missing_callback`: a context whose table has no slot set, and
a context without table. -/
theorem handlers_missing_callback_witness :
    connectedContextEmptyCallbacks.callbacks = some emptyCallbacks ∧
    emptyCallbacks.onSpeechStartDetected = none ∧
    SpeechStartHandler nominalEnv connectedContextEmptyCallbacks = (.USP_SUCCESS, []) ∧
    TurnEndHandler nominalEnv connectedContextEmptyCallbacks =
      (.USP_SUCCESS, [.telemetry_flush 7, .TransportCreateRequestId (some 1)]) ∧
    connectedContext.callbacks = none ∧
    TurnEndHandler nominalEnv connectedContext
      = (nominalEnv.callbacksNullResult, [.telemetry_flush 7]) :=
  ⟨rfl, rfl,
    (handlers_missing_callback nominalEnv connectedContextEmptyCallbacks).1
      emptyCallbacks rfl rfl,
    ((handlers_missing_callback nominalEnv connectedContextEmptyCallbacks).2.2.1
      emptyCallbacks rfl rfl).1,
    rfl,
    ((handlers_missing_callback nominalEnv connectedContext).2.2.2 rfl).2.2.1⟩

/-- C22: on a context whose callback table is installed, `TurnEndHandler` returns
`USP_SUCCESS` and makes these calls and no other, in this order: `telemetry_flush`, then
the `onTurnEnd` callback with the user callback context, once if that slot is set and not
at all otherwise, then one `TransportCreateRequestId`; so the request id is allocated only
after the callback. A `turn.end` frame that `TransportRecvResponseHandler` accepts is
handled by exactly these calls. -/
theorem TurnEndHandler_order (env : Env) (ctx : UspContext) (callbacks : UspCallbacks)
    (headers : HttpHeaders) (buffer : Bytes) (size : Nat)
    (hC : ctx.callbacks = some callbacks) :
    (TurnEndHandler env ctx).1 = .USP_SUCCESS ∧
    (∀ fn, callbacks.onTurnEnd = some fn →
      (TurnEndHandler env ctx).2 =
        [.telemetry_flush ctx.telemetry, .onTurnEnd fn ctx.callbackContext,
         .TransportCreateRequestId ctx.transport]) ∧
    (callbacks.onTurnEnd = none →
      (TurnEndHandler env ctx).2 =
        [.telemetry_flush ctx.telemetry, .TransportCreateRequestId ctx.transport]) ∧
    (HTTPHeaders_FindHeaderValue headers KEYWORD_PATH = some "turn.end" →
      (size ≠ 0 → HTTPHeaders_FindHeaderValue headers g_keywordContentType ≠ none) →
      (TransportRecvResponseHandler env (some headers) buffer size 0 (some ctx)).2 =
        .systemHandler .TurnEndHandler "turn.end" (recvContentType headers size) buffer size ::
          (TurnEndHandler env ctx).2) := by
  refine ⟨?_, ?_, ?_, ?_⟩
  · simp [TurnEndHandler, hC]
  · intro fn hf
    simp [TurnEndHandler, hC, hf]
  · intro hf
    simp [TurnEndHandler, hC, hf]
  · intro hp ht
    rw [TransportRecvResponseHandler_dispatch env ctx headers buffer size "turn.end" hp ht]
    rfl

/-- Witness of `TurnEndHandler_order`: a context with every slot set, and a `turn.end`
frame without body. -/
theorem TurnEndHandler_order_witness :
    connectedContextWithCallbacks.callbacks = some sampleCallbacks ∧
    sampleCallbacks.onTurnEnd = some 107 ∧
    (TurnEndHandler nominalEnv connectedContextWithCallbacks).2 =
      [.telemetry_flush 7, .onTurnEnd 107 55, .TransportCreateRequestId (some 1)] :=
  ⟨rfl, rfl,
    (TurnEndHandler_order nominalEnv connectedContextWithCallbacks sampleCallbacks
      [("Path", "turn.end")] [] 0 rfl).2.1 107 rfl⟩

/-- The copy made by `ContentPathHandler` has `size + 1` bytes. -/
theorem contentCopy_length (buffer : Bytes) (size : Nat) :
    (contentCopy buffer size).length = size + 1 := by
  simp [contentCopy]

/-- The last byte of the copy made by `ContentPathHandler` is 0. -/
theorem contentCopy_last (buffer : Bytes) (size : Nat) :
    (contentCopy buffer size)[size]? = some 0 := by
  simp [contentCopy]

/-- The first `size` bytes of the copy made by `ContentPathHandler` are the body, when the
buffer holds at least `size` bytes. -/
theorem contentCopy_take (buffer : Bytes) (size : Nat) (h : size ≤ buffer.length) :
    (contentCopy buffer size).take size = buffer.take size := by
  apply List.ext_getElem
  · simp [contentCopy, h]
  · intro i h1 h2
    have hi : i < size := by
      simp only [List.length_take] at h2
      omega
    have hne : size ≠ i := by omega
    simp only [contentCopy, List.getElem_take, List.getElem_set_ne hne, List.getElem_map,
      List.getElem_range]
    exact List.getD_eq_getElem _ _ (by omega)

/-- C23: for every path and MIME type, `ContentPathHandler` with size 0 returns
`USP_INVALID_RESPONSE` and calls nothing but the protocol-violation report, so
`ContentDispatch` is not called. With a size above 0 and a successful `BUFFER_create` it
calls `ContentDispatch` exactly once, with the path, the MIME type, the original size and a
copy of `size + 1` bytes whose last byte is 0 and whose first `size` bytes are the body
(for a buffer that holds the `size` bytes of the body), and returns what `ContentDispatch`
returned. -/
theorem ContentPathHandler_spec (env : Env) (path : String) (mime : Option String)
    (buffer : Bytes) (size : Nat) :
    ContentPathHandler env path mime buffer 0 =
      (.USP_INVALID_RESPONSE, [.PROTOCOL_VIOLATION "response contains no body"]) ∧
    (0 < size → env.BUFFER_create buffer (size + 1) = true →
      ContentPathHandler env path mime buffer size =
        (env.ContentDispatch path mime (contentCopy buffer size) size,
          [.ContentDispatch path mime (contentCopy buffer size) size]) ∧
      (contentCopy buffer size).length = size + 1 ∧
      (contentCopy buffer size)[size]? = some 0 ∧
      (size ≤ buffer.length → (contentCopy buffer size).take size = buffer.take size) ∧
      (buffer.length = size → (contentCopy buffer size).take size = buffer)) := by
  refine ⟨rfl, ?_⟩
  intro hs hb
  have hs0 : size ≠ 0 := Nat.pos_iff_ne_zero.mp hs
  refine ⟨?_, contentCopy_length buffer size, contentCopy_last buffer size,
    contentCopy_take buffer size, ?_⟩
  · simp [ContentPathHandler, hs0, hb]
  · intro hl
    rw [contentCopy_take buffer size (by omega), ← hl, List.take_length]

/-- Witness of `ContentPathHandler_spec`: a `speech.phrase` body of three bytes. -/
theorem ContentPathHandler_spec_witness :
    0 < 3 ∧ nominalEnv.BUFFER_create [123, 34, 125] (3 + 1) = true ∧
    ContentPathHandler nominalEnv "speech.phrase" (some "application/json") [123, 34, 125] 3 =
      (.USP_SUCCESS,
        [.ContentDispatch "speech.phrase" (some "application/json") [123, 34, 125, 0] 3]) ∧
    ContentPathHandler nominalEnv "speech.phrase" (some "application/json") [123, 34, 125] 0 =
      (.USP_INVALID_RESPONSE, [.PROTOCOL_VIOLATION "response contains no body"]) :=
  ⟨by decide, rfl,
    ((ContentPathHandler_spec nominalEnv "speech.phrase" (some "application/json")
      [123, 34, 125] 3).2 (by decide) rfl).1,
    (ContentPathHandler_spec nominalEnv "speech.phrase" (some "application/json")
      [123, 34, 125] 3).1⟩

end Usp

namespace RingBuffer

/-! ## Backing store -/

/-- Two positions less than `N` apart have different internal offsets. -/
theorem internalOffset_ne (N initPos q p : Nat) (hq : initPos ≤ q) (h1 : q < p)
    (h2 : p < q + N) : internalOffset N initPos q ≠ internalOffset N initPos p := by
  unfold internalOffset
  intro h
  have hmod : ((p - initPos) - (q - initPos)) % N = 0 :=
    Nat.sub_mod_eq_zero_of_mod_eq h.symm
  have hd : N ∣ (p - initPos) - (q - initPos) := Nat.dvd_of_mod_eq_zero hmod
  have hpos : 0 < (p - initPos) - (q - initPos) := by omega
  have := Nat.le_of_dvd hpos hd
  omega

/-- A copy into the store leaves alone the byte of an earlier position that is less than
`N` below the end of the copy. -/
theorem putBytesAt_old (N initPos : Nat) (data : List Nat) :
    ∀ (store : Nat → Nat) (p q : Nat), initPos ≤ q → q < p → p + data.length ≤ q + N →
      putBytesAt N initPos store p data (internalOffset N initPos q)
        = store (internalOffset N initPos q) := by
  induction data with
  | nil => intro store p q _ _ _; rfl
  | cons b bs ih =>
    intro store p q hq h1 h2
    simp only [List.length_cons] at h2
    simp only [putBytesAt]
    rw [ih _ (p + 1) q hq (by omega) (by omega)]
    exact Function.update_noteq (internalOffset_ne N initPos q p hq h1 (by omega)) _ _

/-- A copy into the store puts each byte at the offset of its position, for the positions
that are less than `N` below the end of the copy. -/
theorem putBytesAt_new (N initPos : Nat) (data : List Nat) :
    ∀ (store : Nat → Nat) (p q : Nat), initPos ≤ p → p ≤ q → q < p + data.length →
      p + data.length ≤ q + N →
      putBytesAt N initPos store p data (internalOffset N initPos q)
        = data.getD (q - p) 0 := by
  induction data with
  | nil => intro store p q _ _ h _; simp at h; omega
  | cons b bs ih =>
    intro store p q hp h1 h2 h3
    simp only [List.length_cons] at h2 h3
    simp only [putBytesAt]
    by_cases hqp : q = p
    · subst hqp
      rw [putBytesAt_old N initPos bs _ (q + 1) q hp (by omega) (by omega)]
      simp
    · rw [ih _ (p + 1) q (by omega) (by omega) (by omega) (by omega)]
      have : q - p = (q - (p + 1)) + 1 := by omega
      rw [this]
      simp

/-- Reading back the bytes of a list by index gives the list. -/
theorem map_getD_range (l : List Nat) :
    (List.range l.length).map (fun i => l.getD i 0) = l := by
  apply List.ext_getElem
  · simp
  · intro i h1 h2
    simp only [List.getElem_map, List.getElem_range]
    exact List.getD_eq_getElem _ _ h2

/-- Under `Holds`, a copy out of the store from a position that is neither below
`init_pos` nor overwritten, ending at or before `write_pos`, yields the bytes written at
those positions. -/
theorem getBytesAt_of_holds (rb : CSpxReadWriteRingBuffer) (W : List Nat) (p n : Nat)
    (h : Holds rb W) (h1 : rb.initPos ≤ p) (h2 : rb.writePos ≤ p + rb.size)
    (h3 : p + n ≤ rb.writePos) :
    getBytesAt rb.size rb.initPos rb.store p n = (W.drop (p - rb.initPos)).take n := by
  obtain ⟨hw, hs⟩ := h
  apply List.ext_getElem
  · simp [getBytesAt]
    omega
  · intro i hi1 hi2
    simp only [getBytesAt, List.length_map, List.length_range] at hi1
    have hidx : p + i = rb.initPos + (p - rb.initPos + i) := by omega
    simp only [getBytesAt, List.getElem_map, List.getElem_range, List.getElem_take,
      List.getElem_drop]
    rw [hidx, hs (p - rb.initPos + i) (by omega) (by omega)]
    exact List.getD_eq_getElem _ _ _

/-! ## Bytes written and the store -/

/-- The start of the I/O phase is what the configuration setters make of the buffer as
constructed. -/
theorem run_setters_eq_fresh (N p0 : Nat) (overflow : Bool) (hN : 0 < N) :
    run empty [.SetSize N, .SetInitPos p0, .AllowOverflow overflow] = fresh N p0 overflow := by
  have hN0 : N ≠ 0 := Nat.pos_iff_ne_zero.mp hN
  simp [run, step, SetSize, SetInitPos, AllowOverflow, empty, fresh, hN0]

/-- A buffer at the start of its I/O phase holds the empty byte sequence. -/
theorem holds_fresh (N p0 : Nat) (overflow : Bool) : Holds (fresh N p0 overflow) [] := by
  refine ⟨rfl, ?_⟩
  intro i hi
  simp at hi

/-- A `Write` that succeeds appends its data to the bytes the buffer holds. -/
theorem holds_write (rb : CSpxReadWriteRingBuffer) (W data : List Nat) (h : Holds rb W)
    (hs : (Write rb data).1 ≠ none) : Holds (Write rb data).2 (W ++ data) := by
  obtain ⟨hw, hst⟩ := h
  unfold Write at hs ⊢
  split_ifs at hs ⊢ with h1 h2
  · exact absurd rfl hs
  · exact absurd rfl hs
  · refine ⟨?_, ?_⟩
    · simp only [List.length_append]
      omega
    · intro i hi hn
      simp only [List.length_append] at hi hn
      simp only
      by_cases hiw : i < W.length
      · rw [putBytesAt_old rb.size rb.initPos data rb.store rb.writePos (rb.initPos + i)
          (by omega) (by omega) (by omega)]
        rw [hst i hiw (by omega), List.getD_append _ _ _ _ hiw]
      · rw [putBytesAt_new rb.size rb.initPos data rb.store rb.writePos (rb.initPos + i)
          (by omega) (by omega) (by omega) (by omega)]
        rw [List.getD_append_right _ _ _ _ (by omega)]
        congr 1
        omega

/-- An operation of the I/O phase keeps the capacity and `init_pos`. -/
theorem step_io_fields (rb : CSpxReadWriteRingBuffer) (op : Op) (hio : op.isIO = true) :
    (step rb op).size = rb.size ∧ (step rb op).initPos = rb.initPos := by
  cases op with
  | SetName s => simp [Op.isIO] at hio
  | SetSize n => simp [Op.isIO] at hio
  | SetInitPos p => simp [Op.isIO] at hio
  | AllowOverflow b => simp [Op.isIO] at hio
  | Write data =>
    simp only [step, Write]
    split_ifs <;> exact ⟨rfl, rfl⟩
  | Read n outGot =>
    simp only [step, Read]
    split_ifs <;> exact ⟨rfl, rfl⟩
  | ReadShared n outGot =>
    simp only [step, ReadShared, Read]
    split_ifs <;> exact ⟨rfl, rfl⟩
  | ReadAtBytePos p n outGot =>
    simp only [step, ReadAtBytePos]
    split_ifs <;> exact ⟨rfl, rfl⟩
  | ReadSharedAtBytePos p n outGot =>
    simp only [step, ReadSharedAtBytePos, ReadAtBytePos]
    split_ifs <;> exact ⟨rfl, rfl⟩
  | GetName => exact ⟨rfl, rfl⟩
  | GetSize => exact ⟨rfl, rfl⟩
  | GetReadPos => exact ⟨rfl, rfl⟩
  | GetWritePos => exact ⟨rfl, rfl⟩
  | GetInitPos => exact ⟨rfl, rfl⟩
  | Term => exact ⟨rfl, rfl⟩

/-- An operation of the I/O phase appends the bytes it writes to the bytes the buffer
holds. -/
theorem holds_step (rb : CSpxReadWriteRingBuffer) (W : List Nat) (op : Op)
    (hio : op.isIO = true) (h : Holds rb W) :
    Holds (step rb op) (W ++ bytesWritten rb op) := by
  cases op with
  | Write data =>
    simp only [step, bytesWritten]
    by_cases hs : (Write rb data).1 = none
    · have hrb : (Write rb data).2 = rb := by
        unfold Write at hs ⊢
        split_ifs at hs ⊢
        · rfl
        · rfl
      simp only [hs, if_true, List.append_nil, hrb]
      exact h
    · simp only [hs, if_false]
      exact holds_write rb W data h hs
  | Read n outGot =>
    simp only [step, bytesWritten, List.append_nil, Read]
    split_ifs <;> exact h
  | ReadShared n outGot =>
    simp only [step, bytesWritten, List.append_nil, ReadShared, Read]
    split_ifs <;> exact h
  | ReadAtBytePos p n outGot =>
    simp only [step, bytesWritten, List.append_nil, ReadAtBytePos]
    split_ifs <;> exact h
  | ReadSharedAtBytePos p n outGot =>
    simp only [step, bytesWritten, List.append_nil, ReadSharedAtBytePos, ReadAtBytePos]
    split_ifs <;> exact h
  | Term =>
    simp only [step, bytesWritten, List.append_nil, Term]
    exact h
  | GetName => simpa only [step, bytesWritten, List.append_nil] using h
  | GetSize => simpa only [step, bytesWritten, List.append_nil] using h
  | GetReadPos => simpa only [step, bytesWritten, List.append_nil] using h
  | GetWritePos => simpa only [step, bytesWritten, List.append_nil] using h
  | GetInitPos => simpa only [step, bytesWritten, List.append_nil] using h
  | SetName s => simp [Op.isIO] at hio
  | SetSize n => simp [Op.isIO] at hio
  | SetInitPos p => simp [Op.isIO] at hio
  | AllowOverflow b => simp [Op.isIO] at hio

/-- A sequence of operations of the I/O phase keeps capacity and `init_pos` and appends
the bytes it writes to the bytes the buffer holds. -/
theorem holds_run (ops : List Op) :
    ∀ (rb : CSpxReadWriteRingBuffer) (W : List Nat), (∀ op ∈ ops, op.isIO = true) →
      Holds rb W →
      Holds (run rb ops) (W ++ written rb ops) ∧ (run rb ops).size = rb.size ∧
        (run rb ops).initPos = rb.initPos := by
  induction ops with
  | nil =>
    intro rb W _ h
    simpa [run, written] using h
  | cons op rest ih =>
    intro rb W hio h
    have hop := hio op (List.mem_cons_self _ _)
    obtain ⟨h1, h2, h3⟩ := ih (step rb op) (W ++ bytesWritten rb op)
      (fun o ho => hio o (List.mem_cons_of_mem _ ho)) (holds_step rb W op hop h)
    obtain ⟨hs, hi⟩ := step_io_fields rb op hop
    refine ⟨?_, ?_, ?_⟩
    · simpa [run, written, List.append_assoc] using h1
    · simpa [run, hs] using h2
    · simpa [run, hi] using h3

/-! ## Round trip (C14) -/

/-- A strict read of `n` available bytes on a buffer that is not terminated returns the `n`
bytes at `read_pos` and advances `read_pos` by `n`. -/
theorem Read_strict_eq (rb : CSpxReadWriteRingBuffer) (n : Nat)
    (hterm : rb.terminated = false) (hn : n ≤ available rb) :
    (Read rb n false).1 = some (getBytesAt rb.size rb.initPos rb.store rb.readPos n) ∧
    (Read rb n false).2 = { rb with readPos := rb.readPos + n } := by
  unfold Read
  have ht : ¬ (rb.terminated = true) := by simp [hterm]
  by_cases h0 : n = 0
  · subst h0
    rw [if_neg ht, if_pos rfl]
    exact ⟨rfl, rfl⟩
  · have hmin : min n (available rb) = n := by omega
    have hc : ¬ (false = false ∧ available rb < n) := by
      rintro ⟨-, h⟩
      omega
    rw [if_neg ht, if_neg h0, if_neg hc, hmin]
    exact ⟨rfl, rfl⟩

/-- A `Write` that does not exceed the free space of a buffer that is not terminated and
has at most `N` bytes pending succeeds, copies the data and advances `write_pos` only. -/
theorem Write_fitting_eq (rb : CSpxReadWriteRingBuffer) (data : List Nat)
    (hterm : rb.terminated = false) (hpend : rb.writePos - rb.readPos ≤ rb.size)
    (hrw : rb.readPos ≤ rb.writePos) (hfit : data.length ≤ free rb) :
    Write rb data =
      (some (),
        { rb with
          store := putBytesAt rb.size rb.initPos rb.store rb.writePos data
          writePos := rb.writePos + data.length }) := by
  unfold Write
  unfold free available at hfit
  have hc1 : ¬ (rb.allowOverflow = false ∧ free rb < data.length) := by
    rintro ⟨-, h⟩
    unfold free available at h
    omega
  have hc2 : ¬ (rb.allowOverflow = true ∧
      rb.size < rb.writePos + data.length - rb.readPos) := by
    rintro ⟨-, h⟩
    omega
  have ht : ¬ (rb.terminated = true) := by simp [hterm]
  rw [if_neg ht, if_neg hc1]
  simp only [if_neg hc2]

/-- The round trip from any buffer that holds `W`: under the fitting condition the reads
return, in order, the bytes that follow `read_pos` in `W` and the chunks written. -/
theorem outputs_of_fits (ops : List Op) :
    ∀ (rb : CSpxReadWriteRingBuffer) (W : List Nat), Holds rb W → rb.terminated = false →
      rb.initPos ≤ rb.readPos → rb.readPos ≤ rb.writePos →
      rb.writePos - rb.readPos ≤ rb.size → fits rb ops = true →
      outputs rb ops
        = ((W ++ chunks ops).drop (rb.readPos - rb.initPos)).take (readTotal ops) := by
  induction ops with
  | nil =>
    intro rb W _ _ _ _ _ _
    simp [outputs, readTotal]
  | cons op rest ih =>
    intro rb W hh hterm hir hrw hpend hfit
    have hread : ∀ n, n ≤ available rb → fits { rb with readPos := rb.readPos + n } rest = true →
        getBytesAt rb.size rb.initPos rb.store rb.readPos n
            ++ outputs { rb with readPos := rb.readPos + n } rest
          = ((W ++ chunks rest).drop (rb.readPos - rb.initPos)).take (n + readTotal rest) := by
      intro n hn hrest
      unfold available at hn
      have hw := hh.1
      rw [ih { rb with readPos := rb.readPos + n } W hh hterm (by simp only; omega)
        (by simp only; omega) (by simp only; omega) hrest]
      rw [getBytesAt_of_holds rb W rb.readPos n hh hir (by omega) (by omega)]
      simp only
      rw [List.take_add, List.drop_drop]
      congr 1
      · rw [List.drop_append_of_le_length (by omega)]
        rw [List.take_append_of_le_length (by simp; omega)]
      · congr 2
        omega
    cases op with
    | Write data =>
      simp only [fits, Bool.and_eq_true, decide_eq_true_eq] at hfit
      obtain ⟨hf, hrest⟩ := hfit
      have hw := Write_fitting_eq rb data hterm hpend hrw hf
      have hne : (Write rb data).1 ≠ none := by rw [hw]; simp
      have hh' := holds_write rb W data hh hne
      simp only [step] at hrest
      unfold free available at hf
      have := ih (Write rb data).2 (W ++ data) hh' (by rw [hw]; exact hterm)
        (by rw [hw]; exact hir) (by rw [hw]; simp only; omega)
        (by rw [hw]; simp only; omega) hrest
      simp only [outputs, bytesRead, step, List.nil_append, chunks, readTotal]
      rw [this, hw, List.append_assoc]
    | Read n outGot =>
      cases outGot with
      | true => simp [fits] at hfit
      | false =>
        simp only [fits, Bool.and_eq_true, decide_eq_true_eq] at hfit
        obtain ⟨hf, hrest⟩ := hfit
        obtain ⟨hr1, hr2⟩ := Read_strict_eq rb n hterm hf
        simp only [step, hr2] at hrest
        simp only [outputs, bytesRead, step, chunks, readTotal, hr1, hr2, Option.getD_some]
        exact hread n hf hrest
    | ReadShared n outGot =>
      cases outGot with
      | true => simp [fits] at hfit
      | false =>
        simp only [fits, Bool.and_eq_true, decide_eq_true_eq] at hfit
        obtain ⟨hf, hrest⟩ := hfit
        obtain ⟨hr1, hr2⟩ := Read_strict_eq rb n hterm hf
        simp only [step, ReadShared, hr2] at hrest
        simp only [outputs, bytesRead, step, chunks, readTotal, ReadShared, hr1, hr2,
          Option.getD_some]
        exact hread n hf hrest
    | SetName s => simp [fits] at hfit
    | SetSize n => simp [fits] at hfit
    | SetInitPos p => simp [fits] at hfit
    | AllowOverflow b => simp [fits] at hfit
    | ReadAtBytePos p n outGot => simp [fits] at hfit
    | ReadSharedAtBytePos p n outGot => simp [fits] at hfit
    | GetName => simp [fits] at hfit
    | GetSize => simp [fits] at hfit
    | GetReadPos => simp [fits] at hfit
    | GetWritePos => simp [fits] at hfit
    | GetInitPos => simp [fits] at hfit
    | Term => simp [fits] at hfit

/-- The model on the first section of the unit test (capacity 1024, a `Write` of 512
bytes): the positions are 512 and 0, a strict `Read` of 1024 bytes and a `Write` of 1024
bytes fail, a strict `Read` of 512 bytes returns the bytes written and moves `read_pos` to
512, after which not even one byte can be read. -/
theorem unit_test_half_full (data more : List Nat) (h : data.length = 512)
    (hm : more.length = 1024) :
    (Write (fresh 1024 0 false) data).2.writePos = 512 ∧
    (Write (fresh 1024 0 false) data).2.readPos = 0 ∧
    (Read (Write (fresh 1024 0 false) data).2 1024 false).1 = none ∧
    (Write (Write (fresh 1024 0 false) data).2 more).1 = none ∧
    (Read (Write (fresh 1024 0 false) data).2 512 false).1 = some data ∧
    (Read (Write (fresh 1024 0 false) data).2 512 false).2.readPos = 512 ∧
    (Read (Read (Write (fresh 1024 0 false) data).2 512 false).2 1 false).1 = none := by
  have hw := Write_fitting_eq (fresh 1024 0 false) data rfl (by simp [fresh, empty])
    (Nat.le_refl _) (by simp [free, available, fresh, empty, h])
  have hh := holds_write (fresh 1024 0 false) [] data (holds_fresh 1024 0 false)
    (by rw [hw]; simp)
  simp only [List.nil_append] at hh
  generalize hrb : (Write (fresh 1024 0 false) data).2 = rb1 at hh
  have hfields : rb1.writePos = 512 ∧ rb1.readPos = 0 ∧ rb1.size = 1024 ∧ rb1.initPos = 0 ∧
      rb1.terminated = false ∧ rb1.allowOverflow = false := by
    rw [← hrb, hw]
    simp [fresh, empty, h]
  obtain ⟨f1, f2, f3, f4, f5, f6⟩ := hfields
  have hav : available rb1 = 512 := by simp [available, f1, f2]
  obtain ⟨r1, r2⟩ := Read_strict_eq rb1 512 f5 (by omega)
  have hbytes : getBytesAt rb1.size rb1.initPos rb1.store rb1.readPos 512 = data := by
    rw [getBytesAt_of_holds rb1 data rb1.readPos 512 hh (by omega) (by omega) (by omega)]
    simp [f2, f4, ← h]
  have ht : ¬ (rb1.terminated = true) := by simp [f5]
  refine ⟨f1, f2, ?_, ?_, ?_, ?_, ?_⟩
  · unfold Read
    rw [if_neg ht, if_neg (by decide), if_pos ⟨rfl, by omega⟩]
  · unfold Write
    rw [if_neg ht, if_pos ⟨f6, by simp [free, hav, f3, hm]⟩]
  · rw [r1, hbytes]
  · rw [r2]
    simp [f2]
  · rw [r2]
    unfold Read
    rw [if_neg ht, if_neg (by decide), if_pos ⟨rfl, by simp [available, f1, f2]⟩]

/-- C14: for every capacity `N`, initial position `p0` and overflow mode, and every
sequence of `Write`, strict `Read` and strict `ReadShared` operations on a buffer at the
start of its I/O phase in which no `Write` exceeds the free space and no read exceeds the
available bytes, the bytes returned by the reads, concatenated, are the first bytes of the
byte sequence `B` written in chunks, as many as were read; when the reads have the total
length of `B` they are `B`. Wrapping around the end of the store makes no difference. -/
theorem round_trip (N p0 : Nat) (overflow : Bool) (ops : List Op)
    (hfit : fits (fresh N p0 overflow) ops = true) :
    outputs (fresh N p0 overflow) ops = (chunks ops).take (readTotal ops) ∧
    (readTotal ops = (chunks ops).length →
      outputs (fresh N p0 overflow) ops = chunks ops) := by
  have h := outputs_of_fits ops (fresh N p0 overflow) [] (holds_fresh N p0 overflow) rfl
    (Nat.le_refl _) (Nat.le_refl _) (by simp [fresh, empty]) hfit
  have h' : outputs (fresh N p0 overflow) ops = (chunks ops).take (readTotal ops) := by
    rw [h]
    simp [fresh, empty]
  refine ⟨h', ?_⟩
  intro hlen
  rw [h', hlen, List.take_length]

/-- Witness of `round_trip`: seven bytes written in chunks of three and four through a
store of five bytes that starts at position 7, read back in chunks of two and five. -/
theorem round_trip_witness :
    fits (fresh 5 7 false) wrappingOps = true ∧
    readTotal wrappingOps = (chunks wrappingOps).length ∧
    outputs (fresh 5 7 false) wrappingOps = [1, 2, 3, 4, 5, 6, 7] :=
  ⟨by decide, by decide,
    (round_trip 5 7 false wrappingOps (by decide)).2 (by decide)⟩

/-! ## Positional reads (C15) -/

/-- C15: for every buffer, position `p` and count `n`, `ReadAtBytePos` and
`ReadSharedAtBytePos` leave the buffer, `read_pos` and `write_pos` included, as it was,
whether they succeed or fail and in both forms. On the buffer reached from the start of
the I/O phase by any sequence of I/O operations, the strict form, when it succeeds, returns
`n` bytes, those written at the absolute positions `p` to `p + n - 1`. -/
theorem ReadAtBytePos_spec (N p0 : Nat) (overflow : Bool) (ops : List Op) (p n : Nat)
    (hio : ∀ op ∈ ops, op.isIO = true) :
    (∀ (rb : CSpxReadWriteRingBuffer) (outGot : Bool),
      (ReadAtBytePos rb p n outGot).2 = rb ∧ (ReadSharedAtBytePos rb p n outGot).2 = rb ∧
      (ReadAtBytePos rb p n outGot).2.readPos = rb.readPos ∧
      (ReadAtBytePos rb p n outGot).2.writePos = rb.writePos) ∧
    (∀ bytes,
      (ReadAtBytePos (run (fresh N p0 overflow) ops) p n false).1 = some bytes →
      bytes.length = n ∧
      bytes = ((written (fresh N p0 overflow) ops).drop (p - p0)).take n) ∧
    (∀ bytes,
      (ReadSharedAtBytePos (run (fresh N p0 overflow) ops) p n false).1 = some bytes →
      bytes.length = n ∧
      bytes = ((written (fresh N p0 overflow) ops).drop (p - p0)).take n) := by
  obtain ⟨hh, hsize, hinit⟩ := holds_run ops (fresh N p0 overflow) [] hio
    (holds_fresh N p0 overflow)
  simp only [List.nil_append] at hh
  have hinit' : (run (fresh N p0 overflow) ops).initPos = p0 := hinit
  have key : ∀ bytes,
      (ReadAtBytePos (run (fresh N p0 overflow) ops) p n false).1 = some bytes →
      bytes.length = n ∧
      bytes = ((written (fresh N p0 overflow) ops).drop (p - p0)).take n := by
    intro bytes hb
    unfold ReadAtBytePos at hb
    split_ifs at hb with h1 h2 h3 h4
    simp only [Option.some.injEq] at hb
    have h4' : p + n ≤ (run (fresh N p0 overflow) ops).writePos := by
      by_contra hc
      exact h4 ⟨rfl, by omega⟩
    have hmin : min n ((run (fresh N p0 overflow) ops).writePos - p) = n := by omega
    rw [hmin] at hb
    subst hb
    refine ⟨by simp [getBytesAt], ?_⟩
    rw [getBytesAt_of_holds _ _ p n hh (by omega) (by omega) h4', hinit']
  refine ⟨?_, key, key⟩
  intro rb outGot
  have hsame : (ReadAtBytePos rb p n outGot).2 = rb := by
    unfold ReadAtBytePos
    split_ifs <;> rfl
  exact ⟨hsame, hsame, by rw [hsame], by rw [hsame]⟩

/-- Witness of `ReadAtBytePos_spec`: after seven bytes went through a store of five bytes
starting at position 7, the positions 9 to 13 still hold the bytes 3 to 7. -/
theorem ReadAtBytePos_spec_witness :
    (∀ op ∈ wrappingOps, op.isIO = true) ∧
    (ReadAtBytePos (run (fresh 5 7 false) wrappingOps) 9 5 false).1 = some [3, 4, 5, 6, 7] ∧
    [3, 4, 5, 6, 7] = ((written (fresh 5 7 false) wrappingOps).drop (9 - 7)).take 5 :=
  ⟨by decide, by decide,
    ((ReadAtBytePos_spec 5 7 false wrappingOps 9 5 (by decide)).2.1 [3, 4, 5, 6, 7]
      (by decide)).2⟩

/-! ## Failures without side effects (C16) -/

/-- C16: with overflow disallowed, a strict `Read` (and `ReadShared`) of `n` bytes fails
and leaves the buffer as it was whenever `n` exceeds `write_pos − read_pos`, in particular
for every `n ≥ 1` on an empty buffer, and a `Write` of `n` bytes fails and leaves the
buffer as it was whenever `n` exceeds `N − (write_pos − read_pos)`. -/
theorem strict_failures_have_no_effect (rb : CSpxReadWriteRingBuffer) (n : Nat)
    (data : List Nat) (hov : rb.allowOverflow = false) :
    (rb.writePos - rb.readPos < n →
      Read rb n false = (none, rb) ∧ ReadShared rb n false = (none, rb)) ∧
    (rb.writePos = rb.readPos → 1 ≤ n → Read rb n false = (none, rb)) ∧
    (rb.size - (rb.writePos - rb.readPos) < data.length → Write rb data = (none, rb)) := by
  have hread : rb.writePos - rb.readPos < n → Read rb n false = (none, rb) := by
    intro h
    have hn : n ≠ 0 := by omega
    unfold Read
    split_ifs with h1 h2
    · rfl
    · rfl
    · exact absurd ⟨rfl, h⟩ h2
  refine ⟨fun h => ⟨hread h, hread h⟩, fun h1 h2 => hread (by omega), ?_⟩
  intro h
  unfold Write
  split_ifs with h1 h2
  · rfl
  · rfl
  · exact absurd ⟨hov, h⟩ h2

/-- Witness of `strict_failures_have_no_effect`: on an empty buffer of capacity 1024 a
strict `Read` of one byte fails, and so does a `Write` of 1025 bytes. -/
theorem strict_failures_have_no_effect_witness :
    (fresh 1024 0 false).allowOverflow = false ∧
    Read (fresh 1024 0 false) 1 false = (none, fresh 1024 0 false) ∧
    Write (fresh 1024 0 false) (List.replicate 1025 0) = (none, fresh 1024 0 false) :=
  ⟨rfl,
    ((strict_failures_have_no_effect (fresh 1024 0 false) 1 (List.replicate 1025 0) rfl).1
      (by decide)).1,
    (strict_failures_have_no_effect (fresh 1024 0 false) 1 (List.replicate 1025 0) rfl).2.2
      (by rw [List.length_replicate]; decide)⟩

/-! ## Overflow mode (C17) -/

/-- C17: with overflow allowed, no `Write` on a buffer that is not terminated fails. On a
full buffer (`write_pos − read_pos = N`) a `Write` of `k` bytes with `1 ≤ k ≤ N` succeeds; `write_pos` and `read_pos`
both increase by `k`; `ReadAtBytePos` of `k` bytes at the old `write_pos` returns the bytes
just written; a strict `ReadAtBytePos` of a range that extends past the new `write_pos`
fails; and `ReadAtBytePos` of `N` bytes from the new `read_pos` succeeds. -/
theorem overflow_write_on_full (rb : CSpxReadWriteRingBuffer) (data : List Nat)
    (hov : rb.allowOverflow = true) (hterm : rb.terminated = false)
    (hinit : rb.initPos ≤ rb.readPos) (hfull : rb.writePos = rb.readPos + rb.size)
    (h1 : 1 ≤ data.length) (h2 : data.length ≤ rb.size) :
    (∀ anyData, (Write rb anyData).1 = some ()) ∧
    (Write rb data).1 = some () ∧
    (Write rb data).2.writePos = rb.writePos + data.length ∧
    (Write rb data).2.readPos = rb.readPos + data.length ∧
    (ReadAtBytePos (Write rb data).2 rb.writePos data.length false).1 = some data ∧
    (∀ p n, (Write rb data).2.writePos < p + n →
      (ReadAtBytePos (Write rb data).2 p n false).1 = none) ∧
    (ReadAtBytePos (Write rb data).2 (Write rb data).2.readPos rb.size false).1.isSome
      = true := by
  have hw : Write rb data =
      (some (),
        { rb with
          store := putBytesAt rb.size rb.initPos rb.store rb.writePos data
          writePos := rb.writePos + data.length
          readPos := rb.readPos + data.length }) := by
    unfold Write
    have hc : rb.size < rb.writePos + data.length - rb.readPos := by omega
    have hr : rb.writePos + data.length - rb.size = rb.readPos + data.length := by omega
    simp [hterm, hov, hc, hr]
  have hany : ∀ anyData, (Write rb anyData).1 = some () := by
    intro anyData
    unfold Write
    rw [if_neg (by simp [hterm]), if_neg (by simp [hov])]
  refine ⟨hany, ?_⟩
  rw [hw]
  refine ⟨rfl, rfl, rfl, ?_, ?_, ?_⟩
  · unfold ReadAtBytePos
    simp only [hterm]
    rw [if_neg (by simp), if_neg (by omega), if_neg (by omega), if_neg (by simp)]
    have hmin : min data.length (rb.writePos + data.length - rb.writePos) = data.length := by
      omega
    simp only [hmin, getBytesAt]
    congr 1
    conv_rhs => rw [← map_getD_range data]
    apply List.map_congr_left
    intro i hi
    rw [putBytesAt_new rb.size rb.initPos data rb.store rb.writePos (rb.writePos + i)
      (by omega) (by omega) (by simpa using hi) (by omega)]
    congr 1
    omega
  · intro p n hpn
    simp only at hpn
    unfold ReadAtBytePos
    split_ifs with c1 c2 c3 c4
    · rfl
    · rfl
    · rfl
    · rfl
    · exact absurd ⟨rfl, hpn⟩ c4
  · unfold ReadAtBytePos
    simp only [hterm]
    rw [if_neg (by simp), if_neg (by omega), if_neg (by omega), if_neg (by omega)]
    rfl

/-- Witness of `overflow_write_on_full`: scenario 3, a full buffer of 1024 bytes and a
`Write` of the byte 0xEF. -/
theorem overflow_write_on_full_witness :
    fullOverflowBuffer.writePos = fullOverflowBuffer.readPos + fullOverflowBuffer.size ∧
    (Write fullOverflowBuffer [0xEF]).2.writePos = 1025 ∧
    (Write fullOverflowBuffer [0xEF]).2.readPos = 1 ∧
    (ReadAtBytePos (Write fullOverflowBuffer [0xEF]).2 1024 1 false).1 = some [0xEF] ∧
    (ReadAtBytePos (Write fullOverflowBuffer [0xEF]).2 1024 2 false).1 = none :=
  ⟨rfl,
    (overflow_write_on_full fullOverflowBuffer [0xEF] rfl rfl (by decide) rfl (by decide)
      (by decide)).2.2.1,
    (overflow_write_on_full fullOverflowBuffer [0xEF] rfl rfl (by decide) rfl (by decide)
      (by decide)).2.2.2.1,
    (overflow_write_on_full fullOverflowBuffer [0xEF] rfl rfl (by decide) rfl (by decide)
      (by decide)).2.2.2.2.1,
    (overflow_write_on_full fullOverflowBuffer [0xEF] rfl rfl (by decide) rfl (by decide)
      (by decide)).2.2.2.2.2.1 1024 2 (by decide)⟩

/-! ## Termination (C18) -/

/-- No operation brings a terminated buffer back. -/
theorem step_terminated (rb : CSpxReadWriteRingBuffer) (op : Op)
    (h : rb.terminated = true) : (step rb op).terminated = true := by
  cases op with
  | SetName s => exact h
  | SetSize n =>
    simp only [step, SetSize]
    split_ifs <;> exact h
  | SetInitPos p =>
    simp only [step, SetInitPos]
    split_ifs <;> exact h
  | AllowOverflow b => exact h
  | Write data => simp [step, Write, h]
  | Read n outGot => simp [step, Read, h]
  | ReadShared n outGot => simp [step, ReadShared, Read, h]
  | ReadAtBytePos p n outGot => simp [step, ReadAtBytePos, h]
  | ReadSharedAtBytePos p n outGot =>
    simp [step, ReadSharedAtBytePos, ReadAtBytePos, h]
  | GetName => exact h
  | GetSize => exact h
  | GetReadPos => exact h
  | GetWritePos => exact h
  | GetInitPos => exact h
  | Term => rfl

/-- A terminated buffer stays terminated under every sequence of operations. -/
theorem run_terminated (ops : List Op) :
    ∀ rb : CSpxReadWriteRingBuffer, rb.terminated = true →
      (run rb ops).terminated = true := by
  induction ops with
  | nil => intro rb h; exact h
  | cons op rest ih =>
    intro rb h
    exact ih (step rb op) (step_terminated rb op h)

/-- C18: once `Term` has been called on a buffer, in whatever state, then after any further
sequence of operations the getters, `Write`, `Read`, `ReadShared` and the positional reads
all fail, for every argument and in both read forms. -/
theorem after_Term_everything_fails (rb : CSpxReadWriteRingBuffer) (ops : List Op) :
    GetName (run (Term rb).2 ops) = none ∧
    GetSize (run (Term rb).2 ops) = none ∧
    GetReadPos (run (Term rb).2 ops) = none ∧
    GetWritePos (run (Term rb).2 ops) = none ∧
    GetInitPos (run (Term rb).2 ops) = none ∧
    (∀ data, (Write (run (Term rb).2 ops) data).1 = none) ∧
    (∀ n outGot, (Read (run (Term rb).2 ops) n outGot).1 = none) ∧
    (∀ n outGot, (ReadShared (run (Term rb).2 ops) n outGot).1 = none) ∧
    (∀ p n outGot, (ReadAtBytePos (run (Term rb).2 ops) p n outGot).1 = none) ∧
    (∀ p n outGot, (ReadSharedAtBytePos (run (Term rb).2 ops) p n outGot).1 = none) := by
  have h : (run (Term rb).2 ops).terminated = true := run_terminated ops _ rfl
  simp [GetName, GetSize, GetReadPos, GetWritePos, GetInitPos, Write, Read, ReadShared,
    ReadAtBytePos, ReadSharedAtBytePos, h]

end RingBuffer
